import Mathlib

/-!
Verification of the deduplicatorV4 duplicate-detection pipeline.

The development shallowly embeds the Python source: text normalisation and
hashing (similarity/hashing.py, utils/page_tracker.py), the TF-IDF
vocabulary manager (similarity/tfidf.py), the MinHash/LSH plumbing
(similarity/hashing.py, backend/tasks/lsh_tasks.py), the page tracker
(utils/page_tracker.py), the pipeline orchestrator
(backend/services/pipeline_orchestrator.py), the clustering service
(backend/services/clustering_service.py), the vectorizer maintenance task
(backend/tasks/vectorizer_tasks.py) and the page review endpoint
(backend/api/page.py).

Modelling conventions:
* The relational store is modelled as plain lists.  Sessions and commit
  batching are not modelled, but the unique index on
  document_metadata.content_hash (utils/database.py line 73) is: a commit
  that assigns a row a content_hash already held by a different row raises
  IntegrityError, `upsert_document_metadata` rolls back and re-raises, and
  the store is left unchanged (`upsert_document_metadata_commit`).  Upserts
  whose kwargs do not assign content_hash cannot trip the per-row check
  and keep the plain total model.  Query order models insertion order, so
  SQLAlchemy first-match queries become List.find?.
* SHA-256 is modelled by an injective tagging function; the spec
  (section 4.3) treats collisions as negligible and unhandled.
* PDF text extraction is an external collaborator: pipeline inputs carry
  the extracted full text and page texts directly.
* Machine floats are idealised as rationals.
-/

/-! ## Python string primitives -/

/-- Whitespace characters recognised by Python's default `str.split`,
`str.strip` and the regex class `\s` (ASCII range). -/
def pyIsSpace (c : Char) : Bool :=
  c = ' ' || c = '\t' || c = '\n' || c = '\r' || c = '\x0b' || c = '\x0c'

/-- Python `str.strip()` on the character list: drop leading and trailing
whitespace. -/
def pyStripList (l : List Char) : List Char :=
  ((l.dropWhile pyIsSpace).reverse.dropWhile pyIsSpace).reverse

/-- Python `text.strip()`. -/
def pyStrip (s : String) : String :=
  String.mk (pyStripList s.data)

/-- Lowercase one ASCII character. -/
def pyLowerChar (c : Char) : Char :=
  if c.isUpper then Char.ofNat (c.toNat + 32) else c

/-- Python `text.lower()` (ASCII letters; the corpus model is ASCII). -/
def pyLower (s : String) : String :=
  String.mk (s.data.map pyLowerChar)

/-- Word characters of the regex class `\w` (ASCII range): letters, digits
and underscore. -/
def pyIsWordChar (c : Char) : Bool :=
  c.isAlphanum || c = '_'

/-- Squeeze maximal runs of spaces to a single space; combined with mapping
every whitespace character to a space this implements
`re.sub(r'\s+', ' ', text)`. -/
def squeezeSpaces : List Char → List Char
  | [] => []
  | [c] => [c]
  | a :: b :: rest =>
      if a = ' ' && b = ' ' then squeezeSpaces (b :: rest)
      else a :: squeezeSpaces (b :: rest)

/-- Replace every whitespace character by a space. -/
def wsToSpace (l : List Char) : List Char :=
  l.map (fun c => if pyIsSpace c then ' ' else c)

/-- Implementation of `re.sub(r'\s+', ' ', text)` on character lists. -/
def collapseWsList (l : List Char) : List Char :=
  squeezeSpaces (wsToSpace l)

/-- Implementation of `re.sub(r'[^\w\s-]', '', text)` on character lists:
keep word characters, whitespace and hyphens, drop the rest. -/
def stripPunctList (l : List Char) : List Char :=
  l.filter (fun c => pyIsWordChar c || pyIsSpace c || c = '-')

/-- Tokeniser used by `pySplitWs`: walk the characters accumulating the
current word (reversed); whitespace closes the word. -/
def splitWsAux : List Char → List Char → List String
  | [], acc => if acc = [] then [] else [String.mk acc.reverse]
  | c :: cs, acc =>
      if pyIsSpace c then
        if acc = [] then splitWsAux cs []
        else String.mk acc.reverse :: splitWsAux cs []
      else splitWsAux cs (c :: acc)

/-- Python `text.split()` with no separator: split on whitespace runs and
drop empty fragments. -/
def pySplitWs (s : String) : List String :=
  splitWsAux s.data []

/-! ## similarity/hashing.py — normalisation and hashing -/

/-- Function `normalize_for_hash` of similarity/hashing.py: lowercase, then
collapse whitespace runs to single spaces, then remove punctuation except
hyphens, then strip.  Note the punctuation removal happens after whitespace
collapsing, so removing a punctuation character can leave a double space. -/
def normalize_for_hash (text : String) : String :=
  if text = "" then ""
  else pyStrip (String.mk (stripPunctList (collapseWsList (pyLower text).data)))

/-- Model of SHA-256 hex digest: an injective tag of the input.  The spec
(section 4.3) treats hash collisions as cryptographically negligible and
unhandled, so an injective stand-in is faithful; the tag keeps every digest
non-empty, as real digests are. -/
def sha256hex (s : String) : String :=
  "sha256:" ++ s

/-- Function `compute_document_hash` of similarity/hashing.py.  The source
takes a PDF path and extracts text; the model takes the extracted text
directly (extraction is an external collaborator).  Empty text yields
`none`, otherwise the SHA-256 of the normalised text. -/
def compute_document_hash (text : String) : Option String :=
  if text = "" then none
  else some (sha256hex (normalize_for_hash text))

/-- Function `compute_page_hash` of similarity/hashing.py: SHA-256 of the
normalised page text. -/
def compute_page_hash (page_text : String) : String :=
  sha256hex (normalize_for_hash page_text)

/-- Function `hash_text` of utils/page_tracker.py: SHA-256 of
`text.strip().encode("utf-8")` — note it strips only, with none of the
lowercasing, whitespace-collapsing or punctuation-stripping of
`normalize_for_hash`. -/
def hash_text (text : String) : String :=
  sha256hex (pyStrip text)

/-- Function `get_minhash` of similarity/hashing.py.  The datasketch
MinHash accumulator over 3-word shingles is modelled by the shingle set
itself (kept as a deduplicated list), which is the quantity whose Jaccard
similarity the signature approximates. -/
def get_minhash (text : String) : List String :=
  let words := pySplitWs text
  (((List.range (words.length - 2)).map
    (fun i => String.intercalate " " ((words.drop i).take 3)))).dedup

/-- Exact Jaccard similarity of two shingle sets (deduplicated lists);
models the estimate produced by datasketch MinHash signatures. -/
def jaccardEst (a b : List String) : ℚ :=
  let au := a.dedup
  let bu := b.dedup
  let inter := au.filter (fun x => x ∈ bu)
  let union := (au ++ bu).dedup
  (inter.length : ℚ) / (union.length : ℚ)

/-! Configuration defaults from utils/config.py. -/

/-- Setting `LSH_JACCARD_THRESHOLD` (default 0.8). -/
def LSH_JACCARD_THRESHOLD : ℚ := 8 / 10

/-- Setting `DOC_SIMILARITY_THRESHOLD` (default 0.85). -/
def DOC_SIMILARITY_THRESHOLD : ℚ := 85 / 100

/-- Setting `CLUSTER_THRESHOLD` (default 0.75). -/
def CLUSTER_THRESHOLD : ℚ := 75 / 100

/-- Setting `MIN_CLUSTER_SIZE` (default 2). -/
def MIN_CLUSTER_SIZE : Nat := 2

-- sanity examples
example : normalize_for_hash "Hello,  World!" = "hello world" := by decide
example : pySplitWs "  a b  c " = ["a", "b", "c"] := by decide
example : get_minhash "a b c d" = ["a b c", "b c d"] := by decide

/-! ## Data model (utils/database.py) -/

/-- Document identifier (UUID string in the source). -/
abbrev DocId := String

/-- Serialised MinHash signature values, as they travel between the
pipeline orchestrator and the LSH rebuild task.  The orchestrator
(pipeline_orchestrator.py line 133) writes the hex string of the raw
hashvalues bytes; `MinHash.deserialize` of datasketch accepts only the
buffer produced by `MinHash.serialize`.  The two formats are modelled as
distinct constructors each carrying the signature it encodes. -/
inductive SerializedMinHash where
  | hexOfHashvalues (sig : List String)
  | datasketchBuf (sig : List String)
deriving DecidableEq

/-- Row of table `document_metadata`. -/
structure DocMeta where
  doc_id : DocId
  filename : String
  status : Option String
  content_hash : Option String
  minhash_signature : Option SerializedMinHash
  matched_doc_id : Option DocId
  similarity_score : Option ℚ
  cluster_id : Option String
  page_count : Option Nat
deriving DecidableEq

/-- Row of table `pages`. -/
structure PageRow where
  id : Nat
  document_id : DocId
  page_number : Nat
  page_hash : String
  text_snippet : Option String
  page_image_path : Option String
  medical_confidence : Option ℚ
  duplicate_confidence : Option ℚ
  status : String
deriving DecidableEq

/-- Row of table `page_duplicates`. -/
structure PageDupRow where
  source_page_id : Nat
  duplicate_page_id : Nat
  similarity : ℚ
deriving DecidableEq

/-- Row of table `page_review_decisions`. -/
structure PageReviewRow where
  page_id : Nat
  user_id : Nat
  decision : String
  notes : Option String
deriving DecidableEq

/-- Row of table `users`. -/
structure UserRow where
  id : Nat
  username : String
deriving DecidableEq

/-- Row of table `document_vectors` (vector_type is always the default
`tfidf` in the code paths under verification).  The `version` field is
ghost specification state: the version of the fitted vectorizer that
produced the vector, which the spec (section 3) makes every stored vector
implicitly tagged with. -/
structure DocVectorRow where
  document_id : DocId
  vector : List ℚ
  version : Nat
deriving DecidableEq

/-- The relational store, modelled as lists in insertion order with total
operations (storage mechanics are out of scope per spec section 1).
`nextPageId` models the pages autoincrement key. -/
structure DB where
  docs : List DocMeta
  pages : List PageRow
  pageDuplicates : List PageDupRow
  pageReviews : List PageReviewRow
  users : List UserRow
  vectors : List DocVectorRow
  nextPageId : Nat
deriving DecidableEq

/-- The empty store. -/
def DB.empty : DB :=
  { docs := [], pages := [], pageDuplicates := [], pageReviews := []
    users := [], vectors := [], nextPageId := 1 }

/-! ## utils/database.py — document CRUD -/

/-- Field assignments carried by one `upsert_document_metadata(db, doc_id,
**kwargs)` call: a `some` field is assigned, a `none` field is left alone
(no caller assigns NULL explicitly). -/
structure DocUpdate where
  filename : Option String := none
  status : Option String := none
  content_hash : Option String := none
  minhash_signature : Option SerializedMinHash := none
  matched_doc_id : Option DocId := none
  similarity_score : Option ℚ := none
  cluster_id : Option String := none
  page_count : Option Nat := none

/-- Assign a field if the kwargs carry a value, keep the old value
otherwise. -/
def setOrKeep {α : Type} (new old : Option α) : Option α :=
  match new with
  | some v => some v
  | none => old

/-- Apply the kwargs of an upsert to an existing row (setattr loop of
`upsert_document_metadata`). -/
def applyDocUpdate (m : DocMeta) (u : DocUpdate) : DocMeta :=
  { m with
    filename := u.filename.getD m.filename,
    status := setOrKeep u.status m.status,
    content_hash := setOrKeep u.content_hash m.content_hash,
    minhash_signature := setOrKeep u.minhash_signature m.minhash_signature,
    matched_doc_id := setOrKeep u.matched_doc_id m.matched_doc_id,
    similarity_score := setOrKeep u.similarity_score m.similarity_score,
    cluster_id := setOrKeep u.cluster_id m.cluster_id,
    page_count := setOrKeep u.page_count m.page_count }

/-- Fresh row created by an upsert when no row with the id exists; absent
kwargs become column defaults (NULL), a missing filename becomes
"Unknown". -/
def newDocMeta (docId : DocId) (u : DocUpdate) : DocMeta :=
  { doc_id := docId
    filename := u.filename.getD "Unknown"
    status := u.status
    content_hash := u.content_hash
    minhash_signature := u.minhash_signature
    matched_doc_id := u.matched_doc_id
    similarity_score := u.similarity_score
    cluster_id := u.cluster_id
    page_count := u.page_count }

/-- Function `upsert_document_metadata` of utils/database.py: update the
row with the given id in place, or append a new row.  This is the
successful-commit case; the unique index on content_hash (line 73 of
utils/database.py) can reject the commit, which
`upsert_document_metadata_commit` models.  Calls whose kwargs do not
assign content_hash cannot violate the per-row index check (the conflict
predicate is definitionally false for them) and use this function
directly. -/
def upsert_document_metadata (db : DB) (docId : DocId) (u : DocUpdate) : DB :=
  if (db.docs.find? (fun m => m.doc_id = docId)).isSome then
    { db with docs :=
        db.docs.map (fun m => if m.doc_id = docId then applyDocUpdate m u else m) }
  else
    { db with docs := db.docs ++ [newDocMeta docId u] }

/-- Per-row check of the unique index on document_metadata.content_hash
(utils/database.py line 73) for the row written by an upsert: the commit
is rejected when the update assigns the row a non-null content_hash
already held by a different document's row. -/
def contentHashConflict (db : DB) (docId : DocId) (u : DocUpdate) : Bool :=
  match u.content_hash with
  | none => false
  | some h => db.docs.any (fun m => m.doc_id ≠ docId && m.content_hash = some h)

/-- Commit of `upsert_document_metadata` under the unique content_hash
index: on a conflicting write the database raises IntegrityError and the
function's handler rolls back and re-raises (utils/database.py lines
293-297), so the store is returned unchanged to the caller only through
the exception; otherwise the upsert is applied. -/
def upsert_document_metadata_commit (db : DB) (docId : DocId)
    (u : DocUpdate) : Except Unit DB :=
  if contentHashConflict db docId u then Except.error ()
  else Except.ok (upsert_document_metadata db docId u)

/-- Function `get_document_metadata_by_id` of utils/database.py. -/
def get_document_metadata_by_id (db : DB) (docId : DocId) : Option DocMeta :=
  db.docs.find? (fun m => m.doc_id = docId)

/-- Function `get_document_by_hash` of utils/database.py: `None` for a
falsy hash, otherwise the first row whose content_hash equals it. -/
def get_document_by_hash (db : DB) (content_hash : String) : Option DocMeta :=
  if content_hash = "" then none
  else db.docs.find? (fun m => m.content_hash = some content_hash)

/-- Function `get_user_by_username` of utils/database.py. -/
def get_user_by_username (db : DB) (username : String) : Option UserRow :=
  db.users.find? (fun u => u.username = username)

/-! ## Page CRUD

utils/page_tracker.py imports `create_page`, `get_page_by_hash`,
`create_page_duplicate`, `get_duplicates_for_page`,
`create_page_review_decision` and `search_pages_by_snippet` from
utils/database.py, but that module defines none of them (only `create_page`
exists there).  The missing ones are modelled from the spec. -/

/-- Function `create_page` of utils/database.py: insert a new page row
with the next autoincrement id. -/
def create_page (db : DB) (documentId : DocId) (pageNumber : Nat)
    (pageHash : String) (textSnippet : Option String)
    (pageImagePath : Option String) (medicalConfidence : Option ℚ)
    (duplicateConfidence : Option ℚ) (status : String) : PageRow × DB :=
  let row : PageRow :=
    { id := db.nextPageId, document_id := documentId,
      page_number := pageNumber, page_hash := pageHash,
      text_snippet := textSnippet, page_image_path := pageImagePath,
      medical_confidence := medicalConfidence,
      duplicate_confidence := duplicateConfidence, status := status }
  (row, { db with pages := db.pages ++ [row], nextPageId := db.nextPageId + 1 })

/-- Modelled from the spec: `get_page_by_hash` is imported from
utils/database.py but absent from src.  Spec section 4.8 keys page
duplicate detection on whether "a page with this exact hash already exists
system-wide" with the first-seen page as canonical source, so the lookup
returns the first stored page with the hash. -/
def get_page_by_hash (db : DB) (pageHash : String) : Option PageRow :=
  db.pages.find? (fun p => p.page_hash = pageHash)

/-- Modelled from the spec: `create_page_duplicate` is imported from
utils/database.py but absent from src.  Per spec section 4.8 it records a
directed PageDuplicate edge source → duplicate with a similarity score
(the PageDuplicate table is declared in utils/database.py). -/
def create_page_duplicate (db : DB) (sourcePageId duplicatePageId : Nat)
    (similarity : ℚ) : DB :=
  { db with pageDuplicates := db.pageDuplicates ++
      [{ source_page_id := sourcePageId,
         duplicate_page_id := duplicatePageId, similarity := similarity }] }

/-- Modelled from the spec: `get_duplicates_for_page` is imported from
utils/database.py but absent from src.  It returns the Page rows recorded
as duplicates of the given source page, i.e. the targets of PageDuplicate
edges whose source is that page. -/
def get_duplicates_for_page (db : DB) (sourcePageId : Nat) : List PageRow :=
  db.pages.filter (fun p =>
    db.pageDuplicates.any (fun e =>
      e.source_page_id = sourcePageId && e.duplicate_page_id = p.id))

/-- Modelled from the spec: `create_page_review_decision` is imported from
utils/database.py but absent from src.  It appends a PageReviewDecision
row and, per the docstring of `update_page_review_status`
("The Page.status field is also updated by create_page_review_decision"),
sets the page's status to the decision. -/
def create_page_review_decision (db : DB) (pageId userId : Nat)
    (decision : String) (notes : Option String) : DB :=
  { db with
    pages := db.pages.map
      (fun p => if p.id = pageId then { p with status := decision } else p),
    pageReviews := db.pageReviews ++
      [{ page_id := pageId, user_id := userId, decision := decision,
         notes := notes }] }

/-! ## utils/page_tracker.py -/

/-- Snippet stored for a page by `process_document_pages`:
`text[:300].replace("\n", " ").strip()`. -/
def pageSnippet (text : String) : String :=
  pyStrip (String.mk ((text.data.take 300).map
    (fun c => if c = '\n' then ' ' else c)))

/-- Length adjustment applied by `process_document_pages` to the
confidence and image-path lists: pad with the default then truncate to the
number of pages (the identity when the length already matches, exactly as
in the source). -/
def padTo {α : Type} (l : List α) (d : α) (n : Nat) : List α :=
  (l ++ List.replicate n d).take n

/-- Loop body state for `process_document_pages`: the store plus the pages
created so far. -/
structure PageLoopState where
  db : DB
  created : List PageRow

/-- One iteration of the page loop of `process_document_pages`
(utils/page_tracker.py lines 87-139): skip blank pages; hash the page
text with `hash_text`; look up an existing page with the same hash; always
create the new page row; if a distinct earlier page with the hash exists,
record a PageDuplicate edge from it to the new page with similarity 1. -/
def processOnePage (docId : DocId) (medConfs dupConfs : List ℚ)
    (imagePaths : List (Option String)) (st : PageLoopState)
    (entry : Nat × String) : PageLoopState :=
  let pageNum := entry.1
  let text := entry.2
  if pyStrip text = "" then st
  else
    let pageHashVal := hash_text text
    let existing := get_page_by_hash st.db pageHashVal
    let (currentPage, db1) := create_page st.db docId pageNum pageHashVal
      (some (pageSnippet text)) (imagePaths.getD (pageNum - 1) none)
      (some (medConfs.getD (pageNum - 1) 0))
      (some (dupConfs.getD (pageNum - 1) 0)) "pending"
    let db2 :=
      match existing with
      | some ex =>
          if ex.id ≠ currentPage.id then
            create_page_duplicate db1 ex.id currentPage.id 1
          else db1
      | none => db1
    { db := db2, created := st.created ++ [currentPage] }

/-- Function `process_document_pages` of utils/page_tracker.py: enumerate
the page texts 1-based, process each page, and return the created rows
with the updated store. -/
def process_document_pages (db : DB) (docId : DocId)
    (pageTexts : List String) (medicalConfidences : Option (List ℚ))
    (duplicateConfidences : Option (List ℚ))
    (imagePaths : Option (List (Option String))) : List PageRow × DB :=
  let n := pageTexts.length
  let medConfs := padTo (medicalConfidences.getD (List.replicate n 0)) 0 n
  let dupConfs := padTo (duplicateConfidences.getD (List.replicate n 0)) 0 n
  let paths := padTo (imagePaths.getD (List.replicate n none)) none n
  let enumerated := (List.range n).map (fun i => (i + 1, pageTexts.getD i ""))
  let final := enumerated.foldl (processOnePage docId medConfs dupConfs paths)
    { db := db, created := [] }
  (final.created, final.db)

/-- Function `update_page_review_status` of utils/page_tracker.py: resolve
the page by hash and the reviewer by username (failing with False when
either is missing), then record the review decision, which also updates
the page status. -/
def update_page_review_status (db : DB) (pageHash decision
    reviewerUsername : String) (notes : Option String) : Bool × DB :=
  match get_page_by_hash db pageHash with
  | none => (false, db)
  | some pageToReview =>
      match get_user_by_username db reviewerUsername with
      | none => (false, db)
      | some reviewer =>
          (true, create_page_review_decision db pageToReview.id reviewer.id
            decision notes)

/-- Function `find_page_duplicates` of utils/page_tracker.py: resolve the
source page by hash, then list the pages recorded as its duplicates. -/
def find_page_duplicates (db : DB) (pageHash : String) : List PageRow :=
  match get_page_by_hash db pageHash with
  | none => []
  | some sourcePage => get_duplicates_for_page db sourcePage.id

/-- Modelled from the spec: `update_page_hash_map` is imported by the
pipeline orchestrator (and backend/api/upload.py) from utils/page_tracker.py
but absent from src — the page tracker renamed it `process_document_pages`.
Per spec sections 4.6 (step 2) and 4.8 the call runs the Page-Level
Duplicate Tracker over the extracted page texts; the filename argument is
carried by the document metadata and unused by the tracker. -/
def update_page_hash_map (db : DB) (docId : DocId) (_filename : String)
    (pageTexts : List String) (medicalConfidences : List ℚ)
    (imagePaths : List (Option String)) : DB :=
  (process_document_pages db docId pageTexts (some medicalConfidences) none
    (some imagePaths)).2

/-! ## similarity/tfidf.py — vocabulary manager and vectors -/

/-- Function `preprocess_text` of similarity/tfidf.py: lowercase and strip,
then remove punctuation except hyphens, then collapse whitespace runs.
The operation order differs from `normalize_for_hash` (strip first,
collapse last). -/
def preprocess_text (text : String) : String :=
  String.mk (collapseWsList (stripPunctList (pyStrip (pyLower text)).data))

/-- English stop words removed by the vectorizer
(`TfidfVectorizer(stop_words='english')`).  The built-in sklearn list is
modelled by its most common members; no verified property depends on the
extent of the list. -/
def isEnglishStopWord (w : String) : Bool :=
  w ∈ ["the", "and", "of", "to", "in", "is", "it", "that", "this", "was",
       "for", "on", "are", "as", "with", "his", "they", "at", "be", "has",
       "had", "have", "not", "but", "by", "from", "or", "an", "she", "he"]

/-- Tokenisation performed by the sklearn vectorizer on the preprocessed
text: maximal word-character runs of length at least two (the default
token pattern), with English stop words removed. -/
def sklearnTokens (text : String) : List String :=
  (((preprocess_text text).data.splitOnP (fun c => !pyIsWordChar c)).map
      String.mk).filter
    (fun w => w.length ≥ 2 && !isEnglishStopWord w)

/-- Terms produced for one document under `ngram_range=(1, 2)`: unigrams
followed by bigrams of adjacent tokens. -/
def ngramsOf (text : String) : List String :=
  let ts := sklearnTokens text
  ts ++ (ts.zip (ts.drop 1)).map (fun p => p.1 ++ " " ++ p.2)

/-- Document frequency of a term over a preprocessed corpus (given as one
deduplicated term list per document). -/
def docFrequency (docTerms : List (List String)) (term : String) : Nat :=
  docTerms.countP (fun d => term ∈ d)

/-- Vocabulary built by
`TfidfVectorizer(ngram_range=(1, 2), stop_words='english', max_df=0.95,
min_df=2).fit`: 1-2 word n-grams with stop words removed, keeping terms
contained in at least 2 documents and in at most 95% of them (the max_df
ratio test df ≤ 0.95·n is written integrally as 100·df ≤ 95·n).  Models
the sklearn fit contract; fitting fails exactly when this list is
empty. -/
def buildVocabulary (texts : List String) : List String :=
  let docTerms := texts.map (fun t => (ngramsOf t).dedup)
  let n := texts.length
  (docTerms.flatten.dedup).filter (fun term =>
    2 ≤ docFrequency docTerms term ∧
      100 * docFrequency docTerms term ≤ 95 * n)

/-- Fitted vectorizer state: the vocabulary, plus the ghost version number
the spec (section 3) attaches to every fitted artefact. -/
structure Vectorizer where
  vocab : List String
  version : Nat
deriving DecidableEq

/-- Transform of a fitted sklearn vectorizer, modelled at the granularity
the verified properties need: a deterministic vector over the fitted
vocabulary (term counts; the tf-idf weighting itself is internal to the
external library). -/
def Vectorizer.transform (v : Vectorizer) (text : String) : List ℚ :=
  v.vocab.map (fun term => ((ngramsOf text).count term : ℚ))

/-- Failure raised by fitting (sklearn `ValueError` for an empty
vocabulary, surfaced as the spec's VectorizationError). -/
inductive FitError where
  | emptyVocabulary
deriving DecidableEq

/-- Ambient system state outside the relational store: the LSH snapshot
file, the saved vectorizer file (also the process-wide cached instance),
and the ghost version counter for fitted vectorizers. -/
structure SysState where
  db : DB
  lshSnapshot : Option (List (DocId × List String))
  vectorizer : Option Vectorizer
  vecVersion : Nat
deriving DecidableEq

/-- Function `fit_vectorizer_and_save` of similarity/tfidf.py: fit a new
vectorizer on the preprocessed texts and save it, replacing the previous
one and updating the global cache.  The sklearn fit raises before
`_save_vectorizer` runs when the vocabulary comes out empty (empty corpus,
all-empty preprocessed texts, or all terms filtered), so on failure the
saved state is untouched. -/
def fit_vectorizer_and_save (texts : List String) (st : SysState) :
    Except FitError Vectorizer × SysState :=
  let vocab := buildVocabulary texts
  if vocab = [] then (Except.error FitError.emptyVocabulary, st)
  else
    let newVectorizer : Vectorizer :=
      { vocab := vocab, version := st.vecVersion + 1 }
    (Except.ok newVectorizer,
      { st with vectorizer := some newVectorizer,
                vecVersion := st.vecVersion + 1 })

/-- Function `tfidf_vectorize` of similarity/tfidf.py: `None` when the
loaded vectorizer has no fitted vocabulary or the preprocessed text is
empty, otherwise the transform under the current vectorizer. -/
def tfidf_vectorize (vectorizer : Option Vectorizer) (text : String) :
    Option (List ℚ) :=
  match vectorizer with
  | none => none
  | some v =>
      if v.vocab = [] then none
      else if pyStrip (preprocess_text text) = "" then none
      else some (v.transform text)

/-- Function `insert_document_vector` of similarity/tfidf.py: update the
row for the document in place if one exists, else insert a new row.  The
ghost version records the vectorizer version the vector was produced
under. -/
def insert_document_vector (db : DB) (docId : DocId) (vector : List ℚ)
    (version : Nat) : DB :=
  if (db.vectors.find? (fun r => r.document_id = docId)).isSome then
    { db with vectors := db.vectors.map (fun r =>
        if r.document_id = docId then
          { r with vector := vector, version := version }
        else r) }
  else
    { db with vectors := db.vectors ++
        [{ document_id := docId, vector := vector, version := version }] }

/-- Function `get_all_document_vectors` of similarity/tfidf.py (for
vector_type 'tfidf'). -/
def get_all_document_vectors (db : DB) : List DocVectorRow :=
  db.vectors

/-! ## similarity/hashing.py — LSH index, and backend/tasks/lsh_tasks.py -/

/-- In-memory MinHashLSH index: the configured Jaccard threshold and the
inserted (key, signature) entries. -/
structure LshIndex where
  threshold : ℚ
  entries : List (DocId × List String)
deriving DecidableEq

/-- Function `create_lsh_index` of similarity/hashing.py: an empty index at
the given threshold. -/
def create_lsh_index (threshold : ℚ) : LshIndex :=
  { threshold := threshold, entries := [] }

/-- Query of a datasketch MinHashLSH index, modelled by its contract
(spec section 4.4): the keys whose signature has estimated Jaccard
similarity at least the configured threshold with the query signature. -/
def LshIndex.query (idx : LshIndex) (sig : List String) : List DocId :=
  (idx.entries.filter (fun e => jaccardEst sig e.2 ≥ idx.threshold)).map
    (fun e => e.1)

/-- Function `query_lsh_index` of similarity/hashing.py (the `None`
MinHash guard is unreachable in the model, where a signature value is
always supplied). -/
def query_lsh_index (idx : LshIndex) (minhash : List String) : List DocId :=
  idx.query minhash

/-- Deserialisation of a stored signature by datasketch
`MinHash.deserialize`, modelled by its contract: it parses only the buffer
format written by `MinHash.serialize`; the hex string written by the
orchestrator (pipeline_orchestrator.py line 133) is not that format — on
it `struct.unpack_from` raises, which `rebuild_lsh_index_from_db` catches
per entry. -/
def minhashDeserialize (s : SerializedMinHash) : Except Unit (List String) :=
  match s with
  | SerializedMinHash.hexOfHashvalues _ => Except.error ()
  | SerializedMinHash.datasketchBuf sig => Except.ok sig

/-- Function `rebuild_lsh_index_from_db` of similarity/hashing.py: for
every document with a stored MinHash signature, deserialise it and insert
it into the index; entries whose deserialisation raises are logged and
skipped. -/
def rebuild_lsh_index_from_db (idx : LshIndex) (db : DB) : LshIndex :=
  db.docs.foldl
    (fun acc m =>
      match m.minhash_signature with
      | none => acc
      | some stored =>
          match minhashDeserialize stored with
          | Except.error _ => acc
          | Except.ok sig =>
              { acc with entries := acc.entries ++ [(m.doc_id, sig)] })
    idx

/-- Function `get_lsh_index_instance` of similarity/hashing.py: load the
snapshot from disk, or return a new empty index when the file is missing
or unreadable. -/
def get_lsh_index_instance (st : SysState) : LshIndex :=
  match st.lshSnapshot with
  | some entries =>
      { threshold := LSH_JACCARD_THRESHOLD, entries := entries }
  | none => create_lsh_index LSH_JACCARD_THRESHOLD

/-- Task `rebuild_global_lsh_index_task` of backend/tasks/lsh_tasks.py:
create an empty index at the configured threshold, populate it from the
stored signatures, and atomically swap it in as the saved snapshot. -/
def rebuild_global_lsh_index_task (st : SysState) : SysState :=
  let newIdx := rebuild_lsh_index_from_db
    (create_lsh_index LSH_JACCARD_THRESHOLD) st.db
  { st with lshSnapshot := some newIdx.entries }

/-! ## backend/services/pipeline_orchestrator.py -/

/-- Input to one `process_document` call.  The source receives a PDF path
and calls the external extractor; the model carries the extractor's
outputs (`extract_text_from_pdf` and `extract_pages_from_pdf`) directly,
together with the document id supplied by the calling task. -/
structure PipeInput where
  doc_id : DocId
  filename : String
  fullText : String
  pageTexts : List String

/-- Unhandled Python exception inside the pipeline body.  Two raises are
reachable in the source: the IntegrityError from a commit that violates
the unique index on document_metadata.content_hash (utils/database.py
line 73; `upsert_document_metadata` rolls back and re-raises), and the
stale call at pipeline_orchestrator.py line 162: `tfidf_search`
(signature `(query_vector, threshold=0.85)`) is invoked as
`search_tfidf_vectors_in_db(db, tfidf_vector, threshold=...)`, which
Python rejects with a TypeError at the call. -/
inductive PipeErr where
  | integrityError
  | searchCallTypeError
deriving DecidableEq

/-- Result dictionary returned by `process_document`: the top-level
"status" key, the "final_status" field of the processing status, and the
"matched_doc_id" key present on the exact-duplicate return. -/
structure PipeResult where
  status : String
  final_status : String
  matched_doc_id : Option DocId
deriving DecidableEq

/-- Serialisation of a MinHash signature performed by the orchestrator
(line 133): the hex string of the raw hashvalues bytes. -/
def serializeMinhashHex (sig : List String) : SerializedMinHash :=
  SerializedMinHash.hexOfHashvalues sig

/-- Stages 2 and 3 of `PipelineOrchestrator.process_document` (lines
123-200), reached when the hash stage found no distinct exact duplicate.
Stage 2 computes the MinHash, queries the loaded (possibly stale) LSH
snapshot for an informational candidate list, and persists the hex-encoded
signature; the live index is never modified here.  Stage 3 vectorizes the
full text with the current vectorizer; `None` ends the run with
error_tfidf_vectorization; otherwise the vector is stored and the stale
search call raises a TypeError (see `PipeErr`). -/
def process_document_tail (inp : PipeInput) (st : SysState) :
    Except PipeErr PipeResult × SysState :=
  -- Stage 2: MinHash / LSH
  let minhashObj := get_minhash inp.fullText
  let currentLsh := get_lsh_index_instance st
  let _candidates := (query_lsh_index currentLsh minhashObj).filter
    (fun pid => pid ≠ inp.doc_id)
  let db3 := upsert_document_metadata st.db inp.doc_id
    { minhash_signature := some (serializeMinhashHex minhashObj),
      status := some "processing_tfidf" }
  -- Stage 3: TF-IDF vectorization and similarity check
  match tfidf_vectorize st.vectorizer inp.fullText with
  | some tfidfVector =>
      let db4 := insert_document_vector db3 inp.doc_id tfidfVector
        st.vecVersion
      (Except.error PipeErr.searchCallTypeError, { st with db := db4 })
  | none =>
      let db4 := upsert_document_metadata db3 inp.doc_id
        { status := some "error_tfidf_vectorization" }
      (Except.ok { status := "error_tfidf_vectorization",
                   final_status := "error_tfidf_vectorization",
                   matched_doc_id := none }, { st with db := db4 })

/-- Body of `PipelineOrchestrator.process_document` (the code inside the
outer try) up to the hash stage, threading the system state through the
stages.  `medConf` is the external collaborator
`measure_medical_confidence`.  The body either returns normally or
raises; the state at the raise is returned alongside, since committed
writes of completed stages are not rolled back. -/
def process_document_body (medConf : String → ℚ) (inp : PipeInput)
    (st : SysState) : Except PipeErr PipeResult × SysState :=
  -- initial metadata entry
  let db0 := upsert_document_metadata st.db inp.doc_id
    { filename := some inp.filename, status := some "processing_extraction" }
  -- Stage 0: text extraction and page processing
  if inp.fullText = "" then
    let dbE := upsert_document_metadata db0 inp.doc_id
      { status := some "error_text_extraction" }
    (Except.ok { status := "error", final_status := "error_text_extraction",
                 matched_doc_id := none }, { st with db := dbE })
  else
    let medConfs := (inp.pageTexts.filter (fun t => t ≠ "")).map medConf
    let db1 := update_page_hash_map db0 inp.doc_id inp.filename inp.pageTexts
      medConfs (List.replicate inp.pageTexts.length none)
    let db2 := upsert_document_metadata db1 inp.doc_id
      { status := some "processing_hash_check",
        page_count := some inp.pageTexts.length }
    -- Stage 1: exact duplicate check
    match compute_document_hash inp.fullText with
    | none =>
        let dbE := upsert_document_metadata db2 inp.doc_id
          { status := some "error_hash_computation" }
        (Except.ok { status := "error",
                     final_status := "error_hash_computation",
                     matched_doc_id := none }, { st with db := dbE })
    | some docHash =>
        match get_document_by_hash db2 docHash with
        | some existing =>
            if existing.doc_id ≠ inp.doc_id then
              -- line 112 writes the matched content_hash onto this row;
              -- the matched row already holds it, so the commit raises
              -- IntegrityError and the return below it is unreachable
              match upsert_document_metadata_commit db2 inp.doc_id
                  { status := some "exact_duplicate",
                    matched_doc_id := some existing.doc_id,
                    content_hash := some docHash } with
              | Except.error _ =>
                  (Except.error PipeErr.integrityError, { st with db := db2 })
              | Except.ok db3 =>
                  (Except.ok { status := "exact_duplicate",
                               final_status := "exact_duplicate",
                               matched_doc_id := some existing.doc_id },
                   { st with db := db3 })
            else
              match upsert_document_metadata_commit db2 inp.doc_id
                  { content_hash := some docHash,
                    status := some "processing_lsh" } with
              | Except.error _ =>
                  (Except.error PipeErr.integrityError, { st with db := db2 })
              | Except.ok dbc =>
                  process_document_tail inp { st with db := dbc }
        | none =>
            match upsert_document_metadata_commit db2 inp.doc_id
                { content_hash := some docHash,
                  status := some "processing_lsh" } with
            | Except.error _ =>
                (Except.error PipeErr.integrityError, { st with db := db2 })
            | Except.ok dbc =>
                process_document_tail inp { st with db := dbc }

/-- Method `PipelineOrchestrator.process_document`: run the body; any
exception is caught at the outer boundary, the document status is
persisted as error_pipeline_critical (with the filename, as the handler
re-sends it), and a structured error result is returned instead of
propagating the exception. -/
def process_document (medConf : String → ℚ) (inp : PipeInput)
    (st : SysState) : PipeResult × SysState :=
  match process_document_body medConf inp st with
  | (Except.ok result, stOut) => (result, stOut)
  | (Except.error _, stErr) =>
      let dbE := upsert_document_metadata stErr.db inp.doc_id
        { status := some "error_pipeline_critical",
          filename := some inp.filename }
      ({ status := "error", final_status := "error_pipeline_critical",
         matched_doc_id := none }, { stErr with db := dbE })

/-! ## backend/services/clustering_service.py -/

/-- One fetched clustering row: document id, filename, vector. -/
structure FetchedVec where
  doc_id : DocId
  filename : String
  vector : List ℚ
deriving DecidableEq

/-- Method `ClusteringService._fetch_tfidf_vectors`: all stored tfidf
vectors that are non-empty, restricted to documents whose metadata row
exists and carries a truthy filename (documents failing either filter are
logged and excluded).  Order follows the vector store scan order. -/
def fetch_tfidf_vectors (db : DB) : List FetchedVec :=
  (get_all_document_vectors db).filterMap (fun r =>
    if r.vector = [] then none
    else
      match get_document_metadata_by_id db r.document_id with
      | none => none
      | some m =>
          if m.filename = "" then none
          else some { doc_id := r.document_id, filename := m.filename,
                      vector := r.vector })

/-- Result summary returned by `run_dbscan_clustering`. -/
structure ClusterRunResult where
  message : String
  total_documents : Nat
  num_clusters : Nat
  num_outliers : Nat
deriving DecidableEq

/-- Cluster label string persisted by `_store_cluster_assignments`:
`cluster_<label>` for DBSCAN labels, `outlier` for the -1 noise label. -/
def clusterLabelString (label : Int) : String :=
  if label = -1 then "outlier" else "cluster_" ++ toString label

/-- Method `ClusteringService._store_cluster_assignments`: upsert each
document's cluster label. -/
def store_cluster_assignments (db : DB) (docIds : List DocId)
    (labels : List Int) : DB :=
  (docIds.zip labels).foldl
    (fun acc p => upsert_document_metadata acc p.1
      { cluster_id := some (clusterLabelString p.2) })
    db

/-- Method `ClusteringService.run_dbscan_clustering`.  The DBSCAN
algorithm itself is the external sklearn collaborator, passed as the
`dbscan` argument mapping the fetched vector matrix to one integer label
per row (-1 for noise); the service is initialised with
eps = 1 - CLUSTER_THRESHOLD and min_samples = MIN_CLUSTER_SIZE.  With no
usable vectors the run returns without touching the store; with fewer
rows than min_samples every fetched document is persisted with the
`outlier_insufficient_data` label and the run reports zero clusters and
all fetched documents as outliers, without invoking DBSCAN; otherwise
DBSCAN labels are computed and persisted. -/
def run_dbscan_clustering (dbscan : List (List ℚ) → List Int) (db : DB) :
    ClusterRunResult × DB :=
  let fetched := fetch_tfidf_vectors db
  if fetched.length = 0 then
    ({ message := "Not enough data or valid vectors for clustering.",
       total_documents := 0, num_clusters := 0, num_outliers := 0 }, db)
  else if fetched.length < MIN_CLUSTER_SIZE then
    let dbOut := fetched.foldl
      (fun acc f => upsert_document_metadata acc f.doc_id
        { cluster_id := some "outlier_insufficient_data" })
      db
    ({ message := "Not enough data for meaningful clustering. All marked as outliers.",
       total_documents := fetched.length, num_clusters := 0,
       num_outliers := fetched.length }, dbOut)
  else
    let labels := dbscan (fetched.map (fun f => f.vector))
    let dbOut := store_cluster_assignments db
      (fetched.map (fun f => f.doc_id)) labels
    ({ message := "Clustering successful (using mock data and placeholder storage)",
       total_documents := fetched.length,
       num_clusters := ((labels.filter (fun l => l ≠ -1)).dedup).length,
       num_outliers := (labels.filter (fun l => l = -1)).length }, dbOut)

/-! ## backend/tasks/vectorizer_tasks.py -/

/-- Stable insertion into a page list sorted by page number, placing the
inserted page before the first page with a larger-or-equal number. -/
def insertByPageNum (p : PageRow) : List PageRow → List PageRow
  | [] => [p]
  | q :: qs =>
      if p.page_number ≤ q.page_number then p :: q :: qs
      else q :: insertByPageNum p qs

/-- Stable sort by page number (Python `sorted(..., key=page_number)`). -/
def sortByPageNum (l : List PageRow) : List PageRow :=
  l.foldr insertByPageNum []

/-- Text reconstruction used by `manage_tfidf_vectorizer_task` for one
document: its pages sorted by page number, keeping pages with a non-null,
truthy text snippet, joined with the literal two-character separator
`"\\n"` the source uses. -/
def docRetainedText (db : DB) (docId : DocId) : String :=
  let pages := sortByPageNum (db.pages.filter (fun p => p.document_id = docId))
  String.intercalate "\\n"
    ((pages.filterMap (fun p => p.text_snippet)).filter (fun s => s ≠ ""))

/-- Corpus assembled by `manage_tfidf_vectorizer_task`: for each document
(in metadata order) whose reconstructed text is non-blank, the pair of its
id and that text; documents with no retained text are skipped with a
warning. -/
def revectorizationPairs (db : DB) : List (DocId × String) :=
  db.docs.filterMap (fun m =>
    let fullText := docRetainedText db m.doc_id
    if pyStrip fullText ≠ "" then some (m.doc_id, fullText) else none)

/-- Re-vectorization loop body of `manage_tfidf_vectorizer_task`: compute
the document's vector under the newly fitted vectorizer and store it,
skipping documents whose text yields no vector. -/
def revectorizeStep (v : Vectorizer) (acc : DB) (p : DocId × String) : DB :=
  match tfidf_vectorize (some v) p.2 with
  | some vector => insert_document_vector acc p.1 vector v.version
  | none => acc

/-- Task `manage_tfidf_vectorizer_task` of backend/tasks/vectorizer_tasks.py.
The force_refit guard's skip branch is entirely commented out in the
source (its `return` included), so the task always proceeds to refit.
It aborts untouched when there are no documents or no retained text;
otherwise it fits and saves a new vectorizer on the reconstructed texts
(a fit failure is caught by the task's outer handler, leaving the state
as it was) and then re-vectorizes exactly the documents that contributed
corpus text, skipping any whose text yields no vector. -/
def manage_tfidf_vectorizer_task (st : SysState) : SysState :=
  if st.db.docs = [] then st
  else
    let pairs := revectorizationPairs st.db
    if pairs = [] then st
    else
      match fit_vectorizer_and_save (pairs.map (fun p => p.2)) st with
      | (Except.error _, _) => st
      | (Except.ok newVectorizer, st1) =>
          { st1 with db := pairs.foldl (revectorizeStep newVectorizer) st1.db }

/-! ## backend/api/page.py — review status endpoint -/

/-- Result of `update_page_review_status_endpoint`: HTTP failure or the
success message with the count of auto-updated duplicates. -/
inductive EndpointResult where
  | httpError (code : Nat)
  | ok (updatedDuplicates : Nat)
deriving DecidableEq

/-- Auto-propagation note attached when a duplicate page is updated. -/
def autoUpdateNote (pageHash : String) (sourceId : String)
    (notes : Option String) : String :=
  "Automatically updated as duplicate of page hash " ++ pageHash ++
    " (ID: " ++ sourceId ++ "). Original note: " ++ notes.getD ""

/-- Endpoint `update_page_review_status_endpoint` of backend/api/page.py:
update the addressed page's status; on success, fetch the pages recorded
as duplicates of it and update each to the same status with an
auto-propagation note — except that any duplicate whose page_hash equals
the addressed hash is skipped by the guard at lines 252-253, and the
recursive update itself re-resolves pages by hash. -/
def update_page_review_status_endpoint (db : DB) (pageHash status
    reviewer : String) (notes : Option String) : EndpointResult × DB :=
  let firstUpdate := update_page_review_status db pageHash status reviewer notes
  if firstUpdate.1 = false then (EndpointResult.httpError 400, firstUpdate.2)
  else
    let db1 := firstUpdate.2
    let sourceIdForNote :=
      match get_page_by_hash db1 pageHash with
      | some p => toString p.id
      | none => "unknown"
    let dups := find_page_duplicates db1 pageHash
    let final := dups.foldl
      (fun acc dupPage =>
        if dupPage.page_hash = pageHash then acc
        else
          let r := update_page_review_status acc.2 dupPage.page_hash status
            reviewer (some (autoUpdateNote pageHash sourceIdForNote notes))
          (acc.1 + (if r.1 then 1 else 0), r.2))
      ((0 : Nat), db1)
    (EndpointResult.ok final.1, final.2)

/-! ## Concrete fixtures used by the claim theorems -/

/-- Trivial external medical-confidence collaborator for concrete runs. -/
def medConfZero : String → ℚ := fun _ => 0

/-- Metadata row fixture: a processed unique document with no fingerprints
recorded. -/
def mkDocFixture (d : String) : DocMeta :=
  { doc_id := d, filename := d ++ ".pdf", status := some "unique",
    content_hash := none, minhash_signature := none, matched_doc_id := none,
    similarity_score := none, cluster_id := none, page_count := none }

/-- Page row fixture: single page of a document with the given snippet. -/
def mkPageFixture (i : Nat) (d : String) (snip : String) : PageRow :=
  { id := i, document_id := d, page_number := 1, page_hash := hash_text snip,
    text_snippet := some snip, page_image_path := none,
    medical_confidence := none, duplicate_confidence := none,
    status := "pending" }

/-- System state with an empty store and no snapshot or vectorizer. -/
def initialState : SysState :=
  { db := DB.empty, lshSnapshot := none, vectorizer := none, vecVersion := 0 }

/-! ## C2 -/

/-- State for the C2 run: document A has a stored tfidf vector [1], and
the current vectorizer is fitted with vocabulary ["alpha"]. -/
def stateC2 : SysState :=
  { db := { DB.empty with
      vectors := [{ document_id := "A", vector := [1], version := 1 }] },
    lshSnapshot := none,
    vectorizer := some { vocab := ["alpha"], version := 1 },
    vecVersion := 1 }

/-- Input for the C2 run: document B whose text vectorizes to [2], which
has cosine similarity 1 ≥ 0.85 with A's stored vector [1]. -/
def inputC2 : PipeInput :=
  { doc_id := "B", filename := "b.pdf", fullText := "alpha alpha",
    pageTexts := [] }

/-- C2: a document that reaches the TF-IDF stage and whose text yields a
vector does NOT terminate with content_duplicate even though a stored
document other than itself (A, cosine similarity 1) is above the 0.85
threshold: the stale `tfidf_search` call raises a TypeError, the run ends
error_pipeline_critical (with that status persisted), and the document's
own vector was already inserted into the store before the failed search. -/
theorem tfidf_stage_crashes_not_content_duplicate :
    tfidf_vectorize stateC2.vectorizer inputC2.fullText = some [2] ∧
    (process_document medConfZero inputC2 stateC2).1.final_status =
      "error_pipeline_critical" ∧
    (process_document medConfZero inputC2 stateC2).1.final_status ≠
      "content_duplicate" ∧
    (process_document medConfZero inputC2 stateC2).1.final_status ≠
      "unique" ∧
    ((get_document_metadata_by_id
        (process_document medConfZero inputC2 stateC2).2.db "B").map
      (fun m => m.status)) = some (some "error_pipeline_critical") ∧
    (process_document medConfZero inputC2 stateC2).2.db.vectors =
      [{ document_id := "A", vector := [1], version := 1 },
       { document_id := "B", vector := [2], version := 1 }] := by
  decide

/-! ## C3 -/

/-- Input for the C3 run: document A with seven words (five shingles). -/
def inputC3A : PipeInput :=
  { doc_id := "A", filename := "a.pdf",
    fullText := "aa bb cc dd ee ff gg", pageTexts := [] }

/-- Input for the C3 run: document B sharing five of its six shingles with
A (Jaccard 5/6 ≥ 0.8) but with a different content hash. -/
def inputC3B : PipeInput :=
  { doc_id := "B", filename := "b.pdf",
    fullText := "aa bb cc dd ee ff gg hh", pageTexts := [] }

/-- State after processing A and then B from the initial state. -/
def stateC3AfterB : SysState :=
  (process_document medConfZero inputC3B
    (process_document medConfZero inputC3A initialState).2).2

/-- Evaluation helper for `jaccardEst`: reduce the rational to concrete
intersection and union cardinalities. -/
theorem jaccardEst_eval (a b : List String) (i u : Nat)
    (hi : (a.dedup.filter (fun x => x ∈ b.dedup)).length = i)
    (hu : ((a.dedup ++ b.dedup).dedup).length = u) :
    jaccardEst a b = (i : ℚ) / (u : ℚ) := by
  simp only [jaccardEst]
  rw [hi, hu]

/-- C3: processing persists the MinHash signature and leaves the live LSH
snapshot untouched (the staleness half of the claim holds), and B's
shingle-set Jaccard similarity to A is 5/6 ≥ 0.8; but after the periodic
rebuild the index is empty — the rebuild cannot deserialise the
hex-encoded signatures the orchestrator stored, skips every entry, and
querying with A's signature returns no candidates at all, so B does not
appear in A's candidate list. -/
theorem lsh_rebuild_drops_hex_signatures :
    (process_document medConfZero inputC3A initialState).2.lshSnapshot =
      initialState.lshSnapshot ∧
    stateC3AfterB.lshSnapshot = initialState.lshSnapshot ∧
    ((get_document_metadata_by_id stateC3AfterB.db "A").map
      (fun m => m.minhash_signature)) =
      some (some (SerializedMinHash.hexOfHashvalues
        (get_minhash inputC3A.fullText))) ∧
    ((get_document_metadata_by_id stateC3AfterB.db "B").map
      (fun m => m.minhash_signature)) =
      some (some (SerializedMinHash.hexOfHashvalues
        (get_minhash inputC3B.fullText))) ∧
    jaccardEst (get_minhash inputC3B.fullText)
      (get_minhash inputC3A.fullText) ≥ LSH_JACCARD_THRESHOLD ∧
    (rebuild_global_lsh_index_task stateC3AfterB).lshSnapshot = some [] ∧
    query_lsh_index
      (get_lsh_index_instance (rebuild_global_lsh_index_task stateC3AfterB))
      (get_minhash inputC3A.fullText) = [] := by
  refine ⟨by decide, by decide, by decide, by decide, ?_, by decide, by decide⟩
  rw [jaccardEst_eval (get_minhash inputC3B.fullText)
    (get_minhash inputC3A.fullText) 5 6 (by decide) (by decide)]
  unfold LSH_JACCARD_THRESHOLD
  norm_num

/-! ## C4 -/

/-- C4 counterexample: the page tracker's `hash_text` and the fingerprint
engine's `compute_page_hash` disagree already on the one-character text
"A" (the former hashes "A", the latter hashes the normalised "a"), so the
two page-hash functions do not agree on every input. -/
theorem page_hash_functions_disagree :
    hash_text "A" ≠ compute_page_hash "A" := by
  decide

/-! ## C8 -/

/-- Pages fixture for C8: page 2 of document A and page 5 of document B
share the page hash "h". -/
def pageC8A : PageRow :=
  { id := 1, document_id := "A", page_number := 2, page_hash := "h",
    text_snippet := some "x", page_image_path := none,
    medical_confidence := none, duplicate_confidence := none,
    status := "pending" }

/-- Second page fixture for C8 (the recorded duplicate of `pageC8A`). -/
def pageC8B : PageRow :=
  { pageC8A with id := 2, document_id := "B", page_number := 5 }

/-- Store for C8: both pages, the PageDuplicate edge p1 → p2 recorded at
ingestion (similarity 1, equal hashes), and the reviewer account. -/
def dbC8 : DB :=
  { DB.empty with
    users := [{ id := 1, username := "rev" }],
    pages := [pageC8A, pageC8B],
    pageDuplicates :=
      [{ source_page_id := 1, duplicate_page_id := 2, similarity := 1 }],
    nextPageId := 3 }

/-- C8: page B.5 is currently recorded as a duplicate of page A.2, yet
when the reviewer sets status "unique" on the page with hash "h", the
endpoint updates only the first page with that hash and auto-updates zero
duplicates — the guard skips every duplicate because hash-equality
duplicates share the addressed page_hash — leaving B.5 at "pending"
instead of the claimed propagated "unique". -/
theorem status_propagation_suppressed_by_hash_guard :
    (find_page_duplicates dbC8 "h").map (fun p => p.id) = [2] ∧
    (update_page_review_status_endpoint dbC8 "h" "unique" "rev" none).1 =
      EndpointResult.ok 0 ∧
    ((update_page_review_status_endpoint dbC8 "h" "unique" "rev" none).2.pages.map
      (fun p => (p.id, p.status))) = [(1, "unique"), (2, "pending")] := by
  decide

/-- Injectivity of the SHA-256 model (collision-freeness, which the spec
assumes of the real digest). -/
theorem sha256hex_injective {a b : String} (h : sha256hex a = sha256hex b) :
    a = b := by
  unfold sha256hex at h
  have hd : ("sha256:" ++ a).data = ("sha256:" ++ b).data := by rw [h]
  simp only [String.data_append] at hd
  exact String.ext (List.append_cancel_left hd)

/-- C4 (amended): `hash_text` hashes exactly the stripped text, so it
agrees with `compute_page_hash` (which hashes the `normalize_for_hash`
form) precisely on texts whose stripped form already equals their
normalised form; on any other text — one needing lowercasing, whitespace
collapsing or punctuation stripping — the two page-hash functions
differ. -/
theorem hash_text_strips_only (t : String) :
    hash_text t = sha256hex (pyStrip t) ∧
    (hash_text t = compute_page_hash t ↔ pyStrip t = normalize_for_hash t) := by
  refine ⟨rfl, ?_⟩
  constructor
  · intro h
    exact sha256hex_injective h
  · intro h
    unfold hash_text compute_page_hash
    rw [h]

/-! ## C5 -/

/-- State for the C5 run: d1 has a stored vector produced under vectorizer
version 1 but no pages (hence no retained snippet text); d2, d3, d4 have
single-page snippets whose corpus fits successfully (the term "alpha" is
in 2 of 3 documents, satisfying min_df=2 and max_df=0.95). -/
def stateC5 : SysState :=
  { db := { DB.empty with
      docs := [mkDocFixture "d1", mkDocFixture "d2", mkDocFixture "d3",
               mkDocFixture "d4"],
      pages := [mkPageFixture 1 "d2" "alpha beta",
                mkPageFixture 2 "d3" "alpha gamma",
                mkPageFixture 3 "d4" "delta eps"],
      vectors := [{ document_id := "d1", vector := [1], version := 1 }],
      nextPageId := 4 },
    lshSnapshot := none,
    vectorizer := some { vocab := ["old"], version := 1 },
    vecVersion := 1 }

/-- C5 counterexample: after the refit task (which fits vectorizer version
2), document d1 — which has a stored vector but no page snippets — still
carries its vector produced under the previous vectorizer version 1, so
the claim that no stored vector produced under a previous vectorizer
remains after the refit is false. -/
theorem stale_vector_survives_refit :
    (manage_tfidf_vectorizer_task stateC5).vecVersion = 2 ∧
    ((manage_tfidf_vectorizer_task stateC5).db.vectors.find?
      (fun r => r.document_id = "d1")) =
      some { document_id := "d1", vector := [1], version := 1 } ∧
    ((manage_tfidf_vectorizer_task stateC5).db.vectors.all
      (fun r => r.version = (manage_tfidf_vectorizer_task stateC5).vecVersion))
      = false := by
  decide

/-! ## C7 -/

/-- Store for the C7 run: one document with a valid non-empty vector,
below the minimum cluster size of 2. -/
def dbC7 : DB :=
  { DB.empty with
    docs := [mkDocFixture "d1"],
    vectors := [{ document_id := "d1", vector := [1], version := 1 }] }

/-- C7 counterexample: with one fetched document (fewer than
MIN_CLUSTER_SIZE = 2) the clustering run persists the label
`outlier_insufficient_data` on it, which is not the `outlier` sentinel
the claim names. -/
theorem small_corpus_label_not_outlier :
    ((get_document_metadata_by_id
        (run_dbscan_clustering (fun _ => []) dbC7).2 "d1").map
      (fun m => m.cluster_id)) = some (some "outlier_insufficient_data") ∧
    (some (some "outlier_insufficient_data") : Option (Option String)) ≠
      some (some "outlier") := by
  decide

/-! ## C9 -/

/-- C9: fitting on an empty corpus, or on a corpus whose every text has no
tokens after preprocessing, fails with the empty-vocabulary error and
leaves the saved vectorizer state untouched; moreover a successful fit
never produces a vectorizer with an empty vocabulary. -/
theorem empty_corpus_fit_fails_atomically (texts : List String)
    (st : SysState)
    (h : texts = [] ∨ ∀ t ∈ texts, sklearnTokens t = []) :
    fit_vectorizer_and_save texts st =
      (Except.error FitError.emptyVocabulary, st) ∧
    (∀ (texts2 : List String) (v : Vectorizer) (st2 : SysState),
      fit_vectorizer_and_save texts2 st = (Except.ok v, st2) →
      v.vocab ≠ []) := by
  constructor
  · have hv : buildVocabulary texts = [] := by
      rcases h with h | h
      · rw [h]; rfl
      · simp only [buildVocabulary]
        have hterms : ∀ t ∈ texts, (ngramsOf t).dedup = [] := by
          intro t ht
          unfold ngramsOf
          rw [h t ht]
          rfl
        have hflat : (texts.map (fun t => (ngramsOf t).dedup)).flatten = [] := by
          rw [List.flatten_eq_nil_iff]
          intro l hl
          rcases List.mem_map.mp hl with ⟨t, ht, rfl⟩
          exact hterms t ht
        rw [hflat]
        rfl
    unfold fit_vectorizer_and_save
    rw [hv]
    rfl
  · intro texts2 v st2 hfit
    unfold fit_vectorizer_and_save at hfit
    by_cases hv : buildVocabulary texts2 = []
    · rw [hv] at hfit
      simp at hfit
    · simp only [if_neg hv] at hfit
      have : v.vocab = buildVocabulary texts2 := by
        have := congrArg (fun p => p.1) hfit
        simp at this
        rw [← this]
    -- the fitted vocabulary is the built vocabulary, which is non-empty
      rw [this]
      exact hv

/-- C9 witness: the all-blank corpus ["", "   "] on the initial state. -/
theorem empty_corpus_fit_fails_atomically_witness :
    fit_vectorizer_and_save ["", "   "] initialState =
      (Except.error FitError.emptyVocabulary, initialState) :=
  (empty_corpus_fit_fails_atomically ["", "   "] initialState
    (Or.inr (by decide))).1

/-! ## Store lemmas shared by the claim proofs -/

/-- An upsert rewrite step keeps every row's doc_id. -/
theorem applyDocUpdate_doc_id (m : DocMeta) (u : DocUpdate) :
    (applyDocUpdate m u).doc_id = m.doc_id := rfl

/-- Lookup of the upserted id: the updated row if it existed, the fresh
row otherwise. -/
theorem getMeta_upsert_same (db : DB) (d : DocId) (u : DocUpdate) :
    get_document_metadata_by_id (upsert_document_metadata db d u) d =
      (match get_document_metadata_by_id db d with
       | some m => some (applyDocUpdate m u)
       | none => some (newDocMeta d u)) := by
  unfold get_document_metadata_by_id upsert_document_metadata
  rcases hm : db.docs.find? (fun m => m.doc_id = d) with _ | m
  · simp only [hm, Option.isSome_none, Bool.false_eq_true, if_false]
    rw [List.find?_append, hm]
    simp [newDocMeta]
  · simp only [hm, Option.isSome_some, if_true]
    have hpred : (fun x : DocMeta => decide (x.doc_id = d)) ∘
        (fun x : DocMeta =>
          if x.doc_id = d then applyDocUpdate x u else x) =
        (fun x : DocMeta => decide (x.doc_id = d)) := by
      funext x
      by_cases hx : x.doc_id = d
      · simp [hx, applyDocUpdate_doc_id]
      · simp [hx]
    rw [List.find?_map, hpred, hm]
    have hmd : m.doc_id = d := by
      have := List.find?_some hm
      simpa using this
    simp [hmd]

/-- Lookup of a different id is unaffected by an upsert. -/
theorem getMeta_upsert_other (db : DB) (d d2 : DocId) (u : DocUpdate)
    (hne : d ≠ d2) :
    get_document_metadata_by_id (upsert_document_metadata db d2 u) d =
      get_document_metadata_by_id db d := by
  unfold get_document_metadata_by_id upsert_document_metadata
  rcases hm2 : db.docs.find? (fun m => m.doc_id = d2) with _ | m2
  · simp only [hm2, Option.isSome_none, Bool.false_eq_true, if_false]
    rw [List.find?_append]
    rcases hm : db.docs.find? (fun m => m.doc_id = d) with _ | m
    · simp [hm, newDocMeta, Ne.symm hne]
    · simp [hm]
  · simp only [hm2, Option.isSome_some, if_true]
    have hpred : (fun x : DocMeta => decide (x.doc_id = d)) ∘
        (fun x : DocMeta =>
          if x.doc_id = d2 then applyDocUpdate x u else x) =
        (fun x : DocMeta => decide (x.doc_id = d)) := by
      funext x
      by_cases hx : x.doc_id = d2
      · simp [hx, applyDocUpdate_doc_id, hne.symm]
      · simp [hx]
    rw [List.find?_map, hpred]
    rcases hm : db.docs.find? (fun m => m.doc_id = d) with _ | m
    · simp [hm]
    · have hmd : m.doc_id = d := by
        have := List.find?_some hm
        simpa using this
      have hmnot : ¬(m.doc_id = d2) := by
        rw [hmd]
        exact hne
      simp [hm, hmnot]

/-- Upserts only touch the docs table. -/
theorem upsert_db_fields (db : DB) (d : DocId) (u : DocUpdate) :
    (upsert_document_metadata db d u).pages = db.pages ∧
    (upsert_document_metadata db d u).pageDuplicates = db.pageDuplicates ∧
    (upsert_document_metadata db d u).vectors = db.vectors := by
  unfold upsert_document_metadata
  by_cases h : (db.docs.find? (fun m => m.doc_id = d)).isSome <;> simp [h]

/-! ## C6 -/

/-- C6: when the pipeline body raises at any stage, `process_document`
returns a terminal error_pipeline_critical status instead of propagating
the exception; that status is persisted on the document; and everything
persisted before the raise survives: the document's content hash and
MinHash signature (when its row existed at the raise), all stored
vectors, all page rows, and the LSH snapshot are exactly those of the
state at the raise. -/
theorem pipeline_critical_error_contained (medConf : String → ℚ)
    (inp : PipeInput) (st : SysState) (e : PipeErr) (stRaise : SysState)
    (h : process_document_body medConf inp st = (Except.error e, stRaise)) :
    (process_document medConf inp st).1.final_status =
      "error_pipeline_critical" ∧
    (process_document medConf inp st).1.status = "error" ∧
    (∃ m2, get_document_metadata_by_id
        (process_document medConf inp st).2.db inp.doc_id = some m2 ∧
      m2.status = some "error_pipeline_critical") ∧
    (∀ m, get_document_metadata_by_id stRaise.db inp.doc_id = some m →
      ∃ m2, get_document_metadata_by_id
          (process_document medConf inp st).2.db inp.doc_id = some m2 ∧
        m2.content_hash = m.content_hash ∧
        m2.minhash_signature = m.minhash_signature) ∧
    (process_document medConf inp st).2.db.vectors = stRaise.db.vectors ∧
    (process_document medConf inp st).2.db.pages = stRaise.db.pages ∧
    (process_document medConf inp st).2.lshSnapshot = stRaise.lshSnapshot := by
  have hrun : process_document medConf inp st =
      ({ status := "error", final_status := "error_pipeline_critical",
         matched_doc_id := none },
       { stRaise with db := (upsert_document_metadata stRaise.db inp.doc_id
          { status := some "error_pipeline_critical",
            filename := some inp.filename }) }) := by
    unfold process_document
    rw [h]
  rw [hrun]
  refine ⟨rfl, rfl, ?_, ?_, ?_, ?_, rfl⟩
  · rw [getMeta_upsert_same]
    rcases get_document_metadata_by_id stRaise.db inp.doc_id with _ | m
    · exact ⟨_, rfl, rfl⟩
    · exact ⟨_, rfl, rfl⟩
  · intro m hm
    rw [getMeta_upsert_same, hm]
    exact ⟨_, rfl, rfl, rfl⟩
  · exact (upsert_db_fields stRaise.db inp.doc_id _).2.2
  · exact (upsert_db_fields stRaise.db inp.doc_id _).1

/-- C6 witness: the run of `inputC2` on `stateC2` raises (the stale
tfidf_search call) after persisting hash, signature and vector, and the
wrapper surfaces error_pipeline_critical. -/
theorem pipeline_critical_error_contained_witness :
    (process_document medConfZero inputC2 stateC2).1.final_status =
      "error_pipeline_critical" :=
  (pipeline_critical_error_contained medConfZero inputC2 stateC2
    PipeErr.searchCallTypeError
    (process_document_body medConfZero inputC2 stateC2).2 (by rfl)).1

/-! ## C1 -/

/-- Digests of the SHA-256 model are never the empty (falsy) string, as
real hex digests are not. -/
theorem sha256hex_ne_empty (s : String) : ¬(sha256hex s = "") := by
  intro h
  have := congrArg String.data h
  simp [sha256hex, String.data_append] at this

/-- Shape of a document row after a full pipeline pass recorded its
content hash and hex-serialised MinHash signature. -/
def fingerprintedDoc (d f st h : String) (sig : List String) (n : Nat) : DocMeta :=
  { doc_id := d, filename := f, status := some st,
    content_hash := some h,
    minhash_signature := some (SerializedMinHash.hexOfHashvalues sig),
    matched_doc_id := none, similarity_score := none, cluster_id := none,
    page_count := some n }

/-- Pipeline input with the given id, filename and extracted text, and no
page texts. -/
def pipeInputOf (d f t : String) : PipeInput :=
  { doc_id := d, filename := f, fullText := t, pageTexts := [] }

/-- System state with an empty store and arbitrary snapshot, vectorizer
and version. -/
def seqStart (lsh : Option (List (DocId × List String)))
    (vec : Option Vectorizer) (ver : Nat) : SysState :=
  { db := DB.empty, lshSnapshot := lsh, vectorizer := vec, vecVersion := ver }

/-- Shape of a document row left behind by the outer pipeline handler
after the exact-duplicate branch's commit is rejected by the unique
content_hash index: status error_pipeline_critical, and — because the
rolled-back upsert never lands — no content hash, no matched document and
no MinHash signature. -/
def criticalDoc (dB fB : String) : DocMeta :=
  { doc_id := dB, filename := fB, status := some "error_pipeline_critical",
    content_hash := none, minhash_signature := none,
    matched_doc_id := none, similarity_score := none, cluster_id := none,
    page_count := some 0 }

/-- C1: the claim's exact-duplicate verdict is defeated by the schema.
From an empty store, processing document A and then document B whose
texts normalise to the same content hash sends B's run into the
exact-duplicate branch, but that branch's upsert writes A's content_hash
onto B's row, violating the unique index on
document_metadata.content_hash; the commit raises IntegrityError, the
outer handler catches it, and B's run returns — and persists —
error_pipeline_critical with no matched_doc_id, no content_hash (the
rolled-back duplicate verdict never lands) and no MinHash signature,
instead of the claimed terminal exact_duplicate matched to A.  A's own
first run recorded its hash against its id and continued past the hash
stage (its MinHash signature was persisted), B's failed run leaves A's
row, the vector store and the LSH snapshot untouched, and reprocessing A
itself — whose hash matches only its own prior record — is still not
marked as its own duplicate. -/
theorem exact_duplicate_write_hits_unique_index (medConf : String → ℚ)
    (lsh : Option (List (DocId × List String))) (vec : Option Vectorizer)
    (ver : Nat) (tA tB idA idB fA fB : String)
    (hA : tA ≠ "") (hB : tB ≠ "")
    (hnorm : normalize_for_hash tA = normalize_for_hash tB)
    (hne : idA ≠ idB) :
    (process_document medConf (pipeInputOf idB fB tB)
      (process_document medConf (pipeInputOf idA fA tA)
        (seqStart lsh vec ver)).2).1 =
      { status := "error", final_status := "error_pipeline_critical",
        matched_doc_id := none } ∧
    (∃ m, get_document_metadata_by_id
        (process_document medConf (pipeInputOf idB fB tB)
          (process_document medConf (pipeInputOf idA fA tA)
            (seqStart lsh vec ver)).2).2.db idB = some m ∧
      m.status = some "error_pipeline_critical" ∧ m.matched_doc_id = none ∧
      m.content_hash = none ∧ m.minhash_signature = none) ∧
    (process_document medConf (pipeInputOf idB fB tB)
      (process_document medConf (pipeInputOf idA fA tA)
        (seqStart lsh vec ver)).2).2.db.vectors =
      (process_document medConf (pipeInputOf idA fA tA)
        (seqStart lsh vec ver)).2.db.vectors ∧
    (process_document medConf (pipeInputOf idB fB tB)
      (process_document medConf (pipeInputOf idA fA tA)
        (seqStart lsh vec ver)).2).2.lshSnapshot =
      (process_document medConf (pipeInputOf idA fA tA)
        (seqStart lsh vec ver)).2.lshSnapshot ∧
    (∃ mA, get_document_metadata_by_id
        (process_document medConf (pipeInputOf idB fB tB)
          (process_document medConf (pipeInputOf idA fA tA)
            (seqStart lsh vec ver)).2).2.db idA = some mA ∧
      mA.content_hash = some (sha256hex (normalize_for_hash tA)) ∧
      mA.minhash_signature ≠ none) ∧
    (process_document medConf (pipeInputOf idA fA tA)
      (process_document medConf (pipeInputOf idA fA tA)
        (seqStart lsh vec ver)).2).1.status ≠ "exact_duplicate" ∧
    (process_document medConf (pipeInputOf idA fA tA)
      (process_document medConf (pipeInputOf idA fA tA)
        (seqStart lsh vec ver)).2).1.final_status ≠ "exact_duplicate" := by
  rcases hv : tfidf_vectorize vec tA with _ | v
  · have h1 : process_document medConf (pipeInputOf idA fA tA)
        (seqStart lsh vec ver) =
        ({ status := "error_tfidf_vectorization",
           final_status := "error_tfidf_vectorization",
           matched_doc_id := none },
         { db := { DB.empty with
              docs := [fingerprintedDoc idA fA "error_tfidf_vectorization"
                (sha256hex (normalize_for_hash tA)) (get_minhash tA) 0] },
           lshSnapshot := lsh, vectorizer := vec, vecVersion := ver }) := by
      simp [process_document, process_document_body, process_document_tail,
        upsert_document_metadata_commit, contentHashConflict,
        update_page_hash_map, process_document_pages, upsert_document_metadata,
        get_document_metadata_by_id, get_document_by_hash,
        compute_document_hash, applyDocUpdate, newDocMeta, setOrKeep,
        serializeMinhashHex, DB.empty, fingerprintedDoc, pipeInputOf,
        seqStart, hA, hv, sha256hex_ne_empty]
    rw [h1]
    have h2 : process_document medConf (pipeInputOf idB fB tB)
        { db := { DB.empty with
            docs := [fingerprintedDoc idA fA "error_tfidf_vectorization"
              (sha256hex (normalize_for_hash tA)) (get_minhash tA) 0] },
          lshSnapshot := lsh, vectorizer := vec, vecVersion := ver } =
        ({ status := "error", final_status := "error_pipeline_critical",
           matched_doc_id := none },
         { db := { DB.empty with
            docs := [fingerprintedDoc idA fA "error_tfidf_vectorization"
                (sha256hex (normalize_for_hash tA)) (get_minhash tA) 0,
              criticalDoc idB fB] },
           lshSnapshot := lsh, vectorizer := vec, vecVersion := ver }) := by
      simp [process_document, process_document_body, process_document_tail,
        upsert_document_metadata_commit, contentHashConflict,
        update_page_hash_map, process_document_pages, upsert_document_metadata,
        get_document_metadata_by_id, get_document_by_hash,
        compute_document_hash, applyDocUpdate, newDocMeta, setOrKeep,
        serializeMinhashHex, DB.empty, fingerprintedDoc, criticalDoc,
        pipeInputOf, hB, ← hnorm, Ne.symm hne, hne, sha256hex_ne_empty]
    rw [h2]
    refine ⟨rfl, ?_, rfl, rfl, ?_, ?_, ?_⟩
    · exact ⟨criticalDoc idB fB,
        by simp [get_document_metadata_by_id, fingerprintedDoc, criticalDoc,
          hne, Ne.symm hne],
        rfl, rfl, rfl, rfl⟩
    · exact ⟨fingerprintedDoc idA fA "error_tfidf_vectorization"
          (sha256hex (normalize_for_hash tA)) (get_minhash tA) 0,
        by simp [get_document_metadata_by_id, fingerprintedDoc],
        rfl, by simp [fingerprintedDoc]⟩
    · simp [process_document, process_document_body, process_document_tail,
        upsert_document_metadata_commit, contentHashConflict,
        update_page_hash_map, process_document_pages, upsert_document_metadata,
        get_document_metadata_by_id, get_document_by_hash,
        compute_document_hash, applyDocUpdate, newDocMeta, setOrKeep,
        serializeMinhashHex, DB.empty, fingerprintedDoc, pipeInputOf,
        hA, hv, sha256hex_ne_empty]
    · simp [process_document, process_document_body, process_document_tail,
        upsert_document_metadata_commit, contentHashConflict,
        update_page_hash_map, process_document_pages, upsert_document_metadata,
        get_document_metadata_by_id, get_document_by_hash,
        compute_document_hash, applyDocUpdate, newDocMeta, setOrKeep,
        serializeMinhashHex, DB.empty, fingerprintedDoc, pipeInputOf,
        hA, hv, sha256hex_ne_empty]
  · have h1 : process_document medConf (pipeInputOf idA fA tA)
        (seqStart lsh vec ver) =
        ({ status := "error", final_status := "error_pipeline_critical",
           matched_doc_id := none },
         { db := { DB.empty with
              docs := [fingerprintedDoc idA fA "error_pipeline_critical"
                (sha256hex (normalize_for_hash tA)) (get_minhash tA) 0],
              vectors := [{ document_id := idA, vector := v, version := ver }] },
           lshSnapshot := lsh, vectorizer := vec, vecVersion := ver }) := by
      simp [process_document, process_document_body, process_document_tail,
        upsert_document_metadata_commit, contentHashConflict,
        update_page_hash_map, process_document_pages, upsert_document_metadata,
        get_document_metadata_by_id, get_document_by_hash,
        compute_document_hash, insert_document_vector, applyDocUpdate,
        newDocMeta, setOrKeep, serializeMinhashHex, DB.empty,
        fingerprintedDoc, pipeInputOf, seqStart, hA, hv, sha256hex_ne_empty]
    rw [h1]
    have h2 : process_document medConf (pipeInputOf idB fB tB)
        { db := { DB.empty with
            docs := [fingerprintedDoc idA fA "error_pipeline_critical"
              (sha256hex (normalize_for_hash tA)) (get_minhash tA) 0],
            vectors := [{ document_id := idA, vector := v, version := ver }] },
          lshSnapshot := lsh, vectorizer := vec, vecVersion := ver } =
        ({ status := "error", final_status := "error_pipeline_critical",
           matched_doc_id := none },
         { db := { DB.empty with
            docs := [fingerprintedDoc idA fA "error_pipeline_critical"
                (sha256hex (normalize_for_hash tA)) (get_minhash tA) 0,
              criticalDoc idB fB],
            vectors := [{ document_id := idA, vector := v, version := ver }] },
           lshSnapshot := lsh, vectorizer := vec, vecVersion := ver }) := by
      simp [process_document, process_document_body, process_document_tail,
        upsert_document_metadata_commit, contentHashConflict,
        update_page_hash_map, process_document_pages, upsert_document_metadata,
        get_document_metadata_by_id, get_document_by_hash,
        compute_document_hash, applyDocUpdate, newDocMeta, setOrKeep,
        serializeMinhashHex, DB.empty, fingerprintedDoc, criticalDoc,
        pipeInputOf, hB, ← hnorm, Ne.symm hne, hne, sha256hex_ne_empty]
    rw [h2]
    refine ⟨rfl, ?_, rfl, rfl, ?_, ?_, ?_⟩
    · exact ⟨criticalDoc idB fB,
        by simp [get_document_metadata_by_id, fingerprintedDoc, criticalDoc,
          hne, Ne.symm hne],
        rfl, rfl, rfl, rfl⟩
    · exact ⟨fingerprintedDoc idA fA "error_pipeline_critical"
          (sha256hex (normalize_for_hash tA)) (get_minhash tA) 0,
        by simp [get_document_metadata_by_id, fingerprintedDoc],
        rfl, by simp [fingerprintedDoc]⟩
    · simp [process_document, process_document_body, process_document_tail,
        upsert_document_metadata_commit, contentHashConflict,
        update_page_hash_map, process_document_pages, upsert_document_metadata,
        get_document_metadata_by_id, get_document_by_hash,
        compute_document_hash, insert_document_vector, applyDocUpdate,
        newDocMeta, setOrKeep, serializeMinhashHex, DB.empty,
        fingerprintedDoc, pipeInputOf, hA, hv, sha256hex_ne_empty]
    · simp [process_document, process_document_body, process_document_tail,
        upsert_document_metadata_commit, contentHashConflict,
        update_page_hash_map, process_document_pages, upsert_document_metadata,
        get_document_metadata_by_id, get_document_by_hash,
        compute_document_hash, insert_document_vector, applyDocUpdate,
        newDocMeta, setOrKeep, serializeMinhashHex, DB.empty,
        fingerprintedDoc, pipeInputOf, hA, hv, sha256hex_ne_empty]


/-- C1 witness: two concrete texts with equal normalised forms
("Hello  World" and "hello world.") processed in sequence from the empty
initial state end the second document in error_pipeline_critical. -/
theorem exact_duplicate_write_hits_unique_index_witness :
    (process_document medConfZero (pipeInputOf "B" "b.pdf" "hello world.")
      (process_document medConfZero (pipeInputOf "A" "a.pdf" "Hello  World")
        (seqStart none none 0)).2).1 =
      { status := "error", final_status := "error_pipeline_critical",
        matched_doc_id := none } :=
  (exact_duplicate_write_hits_unique_index medConfZero none none 0
    "Hello  World" "hello world." "A" "B" "a.pdf" "b.pdf" (by decide)
    (by decide) (by decide) (by decide)).1

/-- Folding the outlier-marking upserts over fetched documents leaves
unrelated document rows untouched. -/
theorem foldl_mark_preserves (lbl : String) (l : List FetchedVec) (db : DB)
    (d : DocId) (hd : d ∉ l.map (fun f => f.doc_id)) :
    get_document_metadata_by_id
      (l.foldl (fun acc f => upsert_document_metadata acc f.doc_id
        { cluster_id := some lbl }) db) d =
      get_document_metadata_by_id db d := by
  induction l generalizing db with
  | nil => rfl
  | cons f rest ih =>
      simp only [List.map_cons, List.mem_cons, not_or] at hd
      simp only [List.foldl_cons]
      rw [ih _ hd.2, getMeta_upsert_other _ _ _ _ hd.1]

/-- Folding the outlier-marking upserts over fetched documents writes the
label onto every listed document. -/
theorem foldl_mark_sets (lbl : String) (l : List FetchedVec) (db : DB)
    (d : DocId) (hd : d ∈ l.map (fun f => f.doc_id)) :
    (get_document_metadata_by_id
      (l.foldl (fun acc f => upsert_document_metadata acc f.doc_id
        { cluster_id := some lbl }) db) d).map (fun m => m.cluster_id) =
      some (some lbl) := by
  induction l generalizing db with
  | nil => cases hd
  | cons f rest ih =>
      by_cases hr : d ∈ rest.map (fun f => f.doc_id)
      · simp only [List.foldl_cons]
        exact ih _ hr
      · have hdf : d = f.doc_id := by
          simp only [List.map_cons, List.mem_cons] at hd
          rcases hd with h | h
          · exact h
          · exact absurd h hr
        simp only [List.foldl_cons]
        rw [foldl_mark_preserves lbl rest _ d hr]
        subst hdf
        rw [getMeta_upsert_same]
        rcases hgm : get_document_metadata_by_id db f.doc_id with _ | m
        · simp [hgm, newDocMeta]
        · simp [hgm, applyDocUpdate, setOrKeep]

/-- C7 (amended): when some documents with valid non-empty vectors are
fetched but fewer than the configured minimum cluster size, the clustering
run reports zero clusters and all fetched documents as outliers, persists
the `outlier_insufficient_data` sentinel label on every fetched document,
and never invokes DBSCAN (the result is the same for every DBSCAN
collaborator). -/
theorem small_corpus_marks_insufficient_data
    (dbscan dbscan2 : List (List ℚ) → List Int) (db : DB)
    (hne : fetch_tfidf_vectors db ≠ [])
    (hlt : (fetch_tfidf_vectors db).length < MIN_CLUSTER_SIZE) :
    (run_dbscan_clustering dbscan db).1.num_clusters = 0 ∧
    (run_dbscan_clustering dbscan db).1.num_outliers =
      (fetch_tfidf_vectors db).length ∧
    (run_dbscan_clustering dbscan db).1.total_documents =
      (fetch_tfidf_vectors db).length ∧
    (∀ f ∈ fetch_tfidf_vectors db,
      ((get_document_metadata_by_id (run_dbscan_clustering dbscan db).2
        f.doc_id).map (fun m => m.cluster_id)) =
        some (some "outlier_insufficient_data")) ∧
    run_dbscan_clustering dbscan db = run_dbscan_clustering dbscan2 db := by
  have hlen0 : ¬((fetch_tfidf_vectors db).length = 0) := by
    simpa [List.length_eq_zero] using hne
  have hbranch : ∀ dbs : List (List ℚ) → List Int,
      run_dbscan_clustering dbs db =
      ({ message := "Not enough data for meaningful clustering. All marked as outliers.",
         total_documents := (fetch_tfidf_vectors db).length,
         num_clusters := 0,
         num_outliers := (fetch_tfidf_vectors db).length },
       (fetch_tfidf_vectors db).foldl
         (fun acc f => upsert_document_metadata acc f.doc_id
           { cluster_id := some "outlier_insufficient_data" }) db) := by
    intro dbs
    unfold run_dbscan_clustering
    rw [if_neg hlen0, if_pos hlt]
  refine ⟨?_, ?_, ?_, ?_, ?_⟩
  · rw [hbranch dbscan]
  · rw [hbranch dbscan]
  · rw [hbranch dbscan]
  · intro f hf
    rw [hbranch dbscan]
    exact foldl_mark_sets _ _ _ _ (List.mem_map_of_mem _ hf)
  · rw [hbranch dbscan, hbranch dbscan2]


/-- C7 witness: the single-document store `dbC7` with the default minimum
cluster size of 2. -/
theorem small_corpus_marks_insufficient_data_witness :
    (run_dbscan_clustering (fun _ => []) dbC7).1.num_clusters = 0 ∧
    (run_dbscan_clustering (fun _ => []) dbC7).1.num_outliers =
      (fetch_tfidf_vectors dbC7).length :=
  ⟨(small_corpus_marks_insufficient_data (fun _ => []) (fun _ => [-1]) dbC7
      (by decide) (by decide)).1,
   (small_corpus_marks_insufficient_data (fun _ => []) (fun _ => [-1]) dbC7
      (by decide) (by decide)).2.1⟩

/-! ## C5 -/

/-- After storing a vector for a document, looking its vector row up
finds exactly the stored value. -/
theorem insert_vector_find_same (db : DB) (d : DocId) (vec : List ℚ)
    (ver : Nat) :
    (insert_document_vector db d vec ver).vectors.find?
      (fun r => r.document_id = d) =
      some { document_id := d, vector := vec, version := ver } := by
  unfold insert_document_vector
  rcases hm : db.vectors.find? (fun r => r.document_id = d) with _ | m
  · simp only [hm, Option.isSome_none, Bool.false_eq_true, if_false]
    rw [List.find?_append, hm]
    simp
  · simp only [hm, Option.isSome_some, if_true]
    have hpred : (fun r : DocVectorRow => decide (r.document_id = d)) ∘
        (fun r : DocVectorRow =>
          if r.document_id = d then { r with vector := vec, version := ver }
          else r) =
        (fun r : DocVectorRow => decide (r.document_id = d)) := by
      funext r
      by_cases hr : r.document_id = d
      · simp [hr]
      · simp [hr]
    rw [List.find?_map, hpred, hm]
    have hmd : m.document_id = d := by
      have := List.find?_some hm
      simpa using this
    simp [hmd]

/-- Storing a vector for one document leaves other documents' vector
lookups unchanged. -/
theorem insert_vector_find_other (db : DB) (d d2 : DocId) (vec : List ℚ)
    (ver : Nat) (hne : d ≠ d2) :
    (insert_document_vector db d2 vec ver).vectors.find?
      (fun r => r.document_id = d) =
      db.vectors.find? (fun r => r.document_id = d) := by
  unfold insert_document_vector
  rcases hm2 : db.vectors.find? (fun r => r.document_id = d2) with _ | m2
  · simp only [hm2, Option.isSome_none, Bool.false_eq_true, if_false]
    rw [List.find?_append]
    rcases hm : db.vectors.find? (fun r => r.document_id = d) with _ | m
    · simp [hm, Ne.symm hne]
    · simp [hm]
  · simp only [hm2, Option.isSome_some, if_true]
    have hpred : (fun r : DocVectorRow => decide (r.document_id = d)) ∘
        (fun r : DocVectorRow =>
          if r.document_id = d2 then { r with vector := vec, version := ver }
          else r) =
        (fun r : DocVectorRow => decide (r.document_id = d)) := by
      funext r
      by_cases hr : r.document_id = d2
      · simp [hr, Ne.symm hne]
      · simp [hr]
    rw [List.find?_map, hpred]
    rcases hm : db.vectors.find? (fun r => r.document_id = d) with _ | m
    · simp [hm]
    · have hmd : m.document_id = d := by
        have := List.find?_some hm
        simpa using this
      have hmnot : ¬(m.document_id = d2) := by
        rw [hmd]
        exact hne
      simp [hm, hmnot]

/-- Storing a vector never removes any document from the vector store. -/
theorem insert_vector_keeps_ids (db : DB) (d2 : DocId) (vec : List ℚ)
    (ver : Nat) (r : DocVectorRow) (hr : r ∈ db.vectors) :
    ∃ r2 ∈ (insert_document_vector db d2 vec ver).vectors,
      r2.document_id = r.document_id := by
  unfold insert_document_vector
  by_cases h : (db.vectors.find? (fun r => r.document_id = d2)).isSome
  · simp only [h, if_true]
    refine ⟨if r.document_id = d2 then
        { r with vector := vec, version := ver } else r, ?_, ?_⟩
    · simpa using List.mem_map_of_mem _ hr
    · by_cases hrd : r.document_id = d2
      · simp [hrd]
      · simp [hrd]
  · simp only [h, if_false]
    exact ⟨r, by simp [hr], rfl⟩

/-- The re-vectorization loop leaves vector lookups of unlisted documents
unchanged. -/
theorem foldl_revec_other (v : Vectorizer) (pairs : List (DocId × String))
    (db : DB) (d : DocId) (hd : d ∉ pairs.map Prod.fst) :
    ((pairs.foldl (revectorizeStep v) db).vectors.find?
      (fun r => r.document_id = d)) =
      db.vectors.find? (fun r => r.document_id = d) := by
  induction pairs generalizing db with
  | nil => rfl
  | cons p rest ih =>
      simp only [List.map_cons, List.mem_cons, not_or] at hd
      simp only [List.foldl_cons]
      rw [ih _ hd.2]
      rcases hv : tfidf_vectorize (some v) p.2 with _ | vec
      · simp [revectorizeStep, hv]
      · simp only [revectorizeStep, hv]
        exact insert_vector_find_other _ _ _ _ _ hd.1

/-- The re-vectorization loop stores, for every listed document whose text
vectorizes, the freshly computed vector tagged with the new vectorizer
version. -/
theorem foldl_revec_find (v : Vectorizer) (pairs : List (DocId × String))
    (db : DB) (d : DocId) (t : String) (vec : List ℚ)
    (hmem : (d, t) ∈ pairs) (hnodup : (pairs.map Prod.fst).Nodup)
    (hvec : tfidf_vectorize (some v) t = some vec) :
    ((pairs.foldl (revectorizeStep v) db).vectors.find?
      (fun r => r.document_id = d)) =
      some { document_id := d, vector := vec, version := v.version } := by
  induction pairs generalizing db with
  | nil => cases hmem
  | cons p rest ih =>
      simp only [List.map_cons, List.nodup_cons] at hnodup
      rcases List.mem_cons.mp hmem with heq | hrest
      · have hd : d ∉ rest.map Prod.fst := by
          rw [← heq] at hnodup
          exact hnodup.1
        simp only [List.foldl_cons]
        rw [foldl_revec_other v rest _ d hd, ← heq]
        simp only [revectorizeStep, hvec]
        exact insert_vector_find_same _ _ _ _
      · simp only [List.foldl_cons]
        exact ih _ hrest hnodup.2

/-- The re-vectorization loop never removes any document from the vector
store. -/
theorem foldl_revec_keeps_ids (v : Vectorizer)
    (pairs : List (DocId × String)) (db : DB) (r : DocVectorRow)
    (hr : r ∈ db.vectors) :
    ∃ r2 ∈ (pairs.foldl (revectorizeStep v) db).vectors,
      r2.document_id = r.document_id := by
  induction pairs generalizing db r with
  | nil => exact ⟨r, hr, rfl⟩
  | cons p rest ih =>
      simp only [List.foldl_cons]
      rcases hv : tfidf_vectorize (some v) p.2 with _ | vec
      · simp only [revectorizeStep, hv]
        exact ih _ _ hr
      · simp only [revectorizeStep, hv]
        rcases insert_vector_keeps_ids db p.1 vec v.version r hr
          with ⟨r2, hr2, hid⟩
        rcases ih _ _ hr2 with ⟨r3, hr3, hid3⟩
        exact ⟨r3, hr3, hid3.trans hid⟩

/-- C5 (amended): when the refit over the retained snippet texts fits
successfully (and document ids are unique), the task bumps the vectorizer
version, installs the new vectorizer, re-persists for every document with
retained text a vector recomputed under it, and loses no document from
the similarity store.  (The `stale_vector_survives_refit` counterexample
shows documents without retained text keep their previous-version
vectors.) -/
theorem refit_revectorizes_retained_text (st : SysState) (v : Vectorizer)
    (st1 : SysState)
    (hfit : fit_vectorizer_and_save
      ((revectorizationPairs st.db).map (fun p => p.2)) st =
      (Except.ok v, st1))
    (hnodup : ((revectorizationPairs st.db).map Prod.fst).Nodup) :
    (manage_tfidf_vectorizer_task st).vecVersion = st.vecVersion + 1 ∧
    (manage_tfidf_vectorizer_task st).vectorizer = some v ∧
    (∀ p ∈ revectorizationPairs st.db, ∀ vec : List ℚ,
      tfidf_vectorize (some v) p.2 = some vec →
      ((manage_tfidf_vectorizer_task st).db.vectors.find?
        (fun r => r.document_id = p.1)) =
        some { document_id := p.1, vector := vec, version := v.version }) ∧
    (∀ r ∈ st.db.vectors,
      ∃ r2 ∈ (manage_tfidf_vectorizer_task st).db.vectors,
        r2.document_id = r.document_id) := by
  -- a successful fit forces a non-empty corpus, hence non-empty pairs/docs
  have hpairs : revectorizationPairs st.db ≠ [] := by
    intro h
    rw [h] at hfit
    simp [fit_vectorizer_and_save, buildVocabulary] at hfit
  have hdocs : st.db.docs ≠ [] := by
    intro h
    exact hpairs (by simp [revectorizationPairs, h])
  -- the shape of a successful fit
  have hfit2 : v.version = st.vecVersion + 1 ∧
      st1 = { st with vectorizer := some v, vecVersion := st.vecVersion + 1 } := by
    unfold fit_vectorizer_and_save at hfit
    by_cases hvv : buildVocabulary
        ((revectorizationPairs st.db).map (fun p => p.2)) = []
    · rw [if_pos hvv] at hfit
      simp at hfit
    · rw [if_neg hvv] at hfit
      have h1 := congrArg Prod.fst hfit
      have h2 := congrArg Prod.snd hfit
      simp at h1 h2
      constructor
      · rw [← h1]
      · rw [h1] at h2
        exact h2.symm
  have hrun : manage_tfidf_vectorizer_task st =
      { st1 with
        db := List.foldl (revectorizeStep v) st1.db (revectorizationPairs st.db) } := by
    unfold manage_tfidf_vectorizer_task
    rw [if_neg hdocs]
    simp only [if_neg hpairs]
    rw [hfit]
  have hst1db : st1.db = st.db := by
    rw [hfit2.2]
  rw [hrun]
  refine ⟨?_, ?_, ?_, ?_⟩
  · simp [hfit2.2]
  · simp [hfit2.2]
  · intro p hp vec hvec
    simp only []
    rw [hst1db]
    exact foldl_revec_find v _ st.db p.1 p.2 vec hp hnodup hvec
  · intro r hr
    simp only []
    rw [hst1db]
    exact foldl_revec_keeps_ids v _ st.db r hr

/-- C5 witness: on `stateC5` the fit succeeds with vocabulary ["alpha"]
and document d2's vector is re-persisted under version 2. -/
theorem refit_revectorizes_retained_text_witness :
    ((manage_tfidf_vectorizer_task stateC5).db.vectors.find?
      (fun r => r.document_id = "d2")) =
      some { document_id := "d2", vector := [1], version := 2 } :=
  (refit_revectorizes_retained_text stateC5
    { vocab := ["alpha"], version := 2 }
    { stateC5 with
      vectorizer := some { vocab := ["alpha"], version := 2 },
      vecVersion := 2 }
    (by rfl) (by decide)).2.2.1 ("d2", "alpha beta") (by decide) [1]
    (by decide)

/-! ## C10 -/

/-- Observable signature of a stored page row: page number, hash, snippet,
owning document and status. -/
def pageSig (p : PageRow) : Nat × String × Option String × DocId × String :=
  (p.page_number, p.page_hash, p.text_snippet, p.document_id, p.status)

/-- Signature the tracker stores for a non-blank 1-based page entry. -/
def entrySig (docId : DocId) (e : Nat × String) :
    Nat × String × Option String × DocId × String :=
  (e.1, hash_text e.2, some (pageSnippet e.2), docId, "pending")

/-- The page row created by one non-blank iteration of the tracker loop. -/
def trackedPageRow (docId : DocId) (mcs dcs : List ℚ)
    (ips : List (Option String)) (nextId : Nat) (e : Nat × String) :
    PageRow :=
  { id := nextId, document_id := docId, page_number := e.1,
    page_hash := hash_text e.2, text_snippet := some (pageSnippet e.2),
    page_image_path := ips.getD (e.1 - 1) none,
    medical_confidence := some (mcs.getD (e.1 - 1) 0),
    duplicate_confidence := some (dcs.getD (e.1 - 1) 0),
    status := "pending" }

/-- Specification of the tracker loop: it only appends page rows, one per
non-blank entry in order (blank entries contribute nothing), never touches
document rows, and every PageDuplicate edge it adds points at one of the
rows it created. -/
theorem pageFold_spec (docId : DocId) (mcs dcs : List ℚ)
    (ips : List (Option String)) (entries : List (Nat × String))
    (s : PageLoopState) :
    ∃ newPages : List PageRow,
      (entries.foldl (processOnePage docId mcs dcs ips) s).created =
        s.created ++ newPages ∧
      (entries.foldl (processOnePage docId mcs dcs ips) s).db.docs =
        s.db.docs ∧
      (entries.foldl (processOnePage docId mcs dcs ips) s).db.pages =
        s.db.pages ++ newPages ∧
      newPages.map pageSig =
        (entries.filter (fun e => pyStrip e.2 ≠ "")).map (entrySig docId) ∧
      (∀ e2 ∈ (entries.foldl (processOnePage docId mcs dcs ips)
          s).db.pageDuplicates,
        e2 ∈ s.db.pageDuplicates ∨ ∃ p ∈ newPages,
          e2.duplicate_page_id = p.id) ∧
      newPages.length ≤ entries.length := by
  induction entries generalizing s with
  | nil =>
      exact ⟨[], by simp, rfl, by simp, by simp, fun e2 he2 => Or.inl he2,
        by simp⟩
  | cons e rest ih =>
      simp only [List.foldl_cons]
      by_cases hblank : pyStrip e.2 = ""
      · have hstep : processOnePage docId mcs dcs ips s e = s := by
          unfold processOnePage
          rw [if_pos hblank]
        rw [hstep]
        rcases ih s with ⟨np, h1, h2, h3, h4, h5, h6⟩
        refine ⟨np, h1, h2, h3, ?_, h5, Nat.le_succ_of_le h6⟩
        rw [List.filter_cons]
        simp only [hblank]
        simpa using h4
      · have hstep : ∃ dbx,
            processOnePage docId mcs dcs ips s e =
              { db := dbx, created := s.created ++
                [trackedPageRow docId mcs dcs ips s.db.nextPageId e] } ∧
            dbx.docs = s.db.docs ∧
            dbx.pages = s.db.pages ++
              [trackedPageRow docId mcs dcs ips s.db.nextPageId e] ∧
            (∀ e2 ∈ dbx.pageDuplicates, e2 ∈ s.db.pageDuplicates ∨
              e2.duplicate_page_id = s.db.nextPageId) := by
          unfold processOnePage trackedPageRow
          rw [if_neg hblank]
          simp only [create_page]
          rcases get_page_by_hash s.db (hash_text e.2) with _ | ex
          · exact ⟨_, rfl, rfl, rfl, fun e2 he2 => Or.inl he2⟩
          · simp only []
            by_cases hid : ex.id ≠ s.db.nextPageId
            · rw [if_pos hid]
              simp only [create_page_duplicate]
              refine ⟨_, rfl, rfl, rfl, ?_⟩
              intro e2 he2
              rcases List.mem_append.mp he2 with h | h
              · exact Or.inl h
              · simp at h
                right
                rw [h]
            · rw [if_neg hid]
              exact ⟨_, rfl, rfl, rfl, fun e2 he2 => Or.inl he2⟩
        rcases hstep with ⟨dbx, hs, hdocs, hpages, hdups⟩
        rw [hs]
        rcases ih { db := dbx, created := s.created ++
            [trackedPageRow docId mcs dcs ips s.db.nextPageId e] }
          with ⟨np, h1, h2, h3, h4, h5, h6⟩
        refine ⟨trackedPageRow docId mcs dcs ips s.db.nextPageId e :: np,
          ?_, ?_, ?_, ?_, ?_, ?_⟩
        · rw [h1]
          simp
        · rw [h2, hdocs]
        · rw [h3, hpages]
          simp
        · simp [List.filter_cons, hblank, h4, pageSig, entrySig,
            trackedPageRow]
        · intro e2 he2
          rcases h5 e2 he2 with h | ⟨p, hp, hpe⟩
          · rcases hdups e2 h with h | h
            · exact Or.inl h
            · exact Or.inr ⟨trackedPageRow docId mcs dcs ips
                s.db.nextPageId e, by simp, h⟩
          · exact Or.inr ⟨p, by simp [hp], hpe⟩
        · simpa using Nat.succ_le_succ h6

/-- Storing a vector leaves document rows untouched. -/
theorem insert_vector_docs (db : DB) (d : DocId) (v : List ℚ) (ver : Nat) :
    (insert_document_vector db d v ver).docs = db.docs := by
  unfold insert_document_vector
  by_cases h : (db.vectors.find? (fun r => r.document_id = d)).isSome <;>
    simp [h]

/-- The page tracker never touches document rows. -/
theorem process_document_pages_docs (db : DB) (docId : DocId)
    (texts : List String) (mc dc : Option (List ℚ))
    (ip : Option (List (Option String))) :
    (process_document_pages db docId texts mc dc ip).2.docs = db.docs := by
  rcases pageFold_spec docId
      (padTo (mc.getD (List.replicate texts.length 0)) 0 texts.length)
      (padTo (dc.getD (List.replicate texts.length 0)) 0 texts.length)
      (padTo (ip.getD (List.replicate texts.length none)) none texts.length)
      ((List.range texts.length).map (fun i => (i + 1, texts.getD i "")))
      { db := db, created := [] }
    with ⟨np, _, h2, _, _, _, _⟩
  exact h2

/-- Document lookup depends only on the docs table. -/
theorem getMeta_docs_congr (db1 db2 : DB) (d : DocId)
    (h : db1.docs = db2.docs) :
    get_document_metadata_by_id db1 d = get_document_metadata_by_id db2 d := by
  unfold get_document_metadata_by_id
  rw [h]

/-- The stage-0 upsert records the page count. -/
theorem upsert_sets_page_count (db : DB) (d : DocId) (sC : Option String)
    (n : Nat) :
    ∃ m, get_document_metadata_by_id
      (upsert_document_metadata db d
        { status := sC, page_count := some n }) d = some m ∧
    m.page_count = some n := by
  rw [getMeta_upsert_same]
  rcases get_document_metadata_by_id db d with _ | m
  · exact ⟨_, rfl, rfl⟩
  · exact ⟨_, rfl, rfl⟩

/-- An upsert that does not assign page_count preserves a recorded page
count. -/
theorem upsert_keeps_page_count (db : DB) (d : DocId) (u : DocUpdate)
    (n : Nat) (hu : u.page_count = none)
    (hpc : ∃ m, get_document_metadata_by_id db d = some m ∧
      m.page_count = some n) :
    ∃ m, get_document_metadata_by_id
      (upsert_document_metadata db d u) d = some m ∧
    m.page_count = some n := by
  rcases hpc with ⟨m, hm, hmp⟩
  rw [getMeta_upsert_same, hm]
  refine ⟨_, rfl, ?_⟩
  simp [applyDocUpdate, hu, setOrKeep, hmp]

/-- A commit accepted by the unique content_hash index applies exactly the
plain upsert. -/
theorem commit_ok_eq (db : DB) (d : DocId) (u : DocUpdate) (db2 : DB)
    (h : upsert_document_metadata_commit db d u = Except.ok db2) :
    db2 = upsert_document_metadata db d u := by
  unfold upsert_document_metadata_commit at h
  by_cases hc : contentHashConflict db d u = true
  · rw [if_pos hc] at h
    exact absurd h (by simp)
  · rw [if_neg hc] at h
    injection h with h
    exact h.symm

/-- The LSH and TF-IDF stages never assign page_count, so a recorded page
count survives them. -/
theorem tail_keeps_page_count (inp : PipeInput) (stc : SysState) (n : Nat)
    (hpc : ∃ m, get_document_metadata_by_id stc.db inp.doc_id = some m ∧
      m.page_count = some n) :
    ∃ m, get_document_metadata_by_id
      (process_document_tail inp stc).2.db inp.doc_id = some m ∧
    m.page_count = some n := by
  rcases hv : tfidf_vectorize stc.vectorizer inp.fullText with _ | vec <;>
    simp only [process_document_tail, hv]
  · exact upsert_keeps_page_count _ _ _ _ rfl
      (upsert_keeps_page_count _ _ _ _ rfl hpc)
  · rw [getMeta_docs_congr _
      (upsert_document_metadata stc.db inp.doc_id
        { minhash_signature :=
            some (serializeMinhashHex (get_minhash inp.fullText)),
          status := some "processing_tfidf" }) inp.doc_id
      (insert_vector_docs _ _ _ _)]
    exact upsert_keeps_page_count _ _ _ _ rfl hpc

/-- Every body run on non-empty text leaves the document with page_count
equal to the number of extracted page texts. -/
theorem body_records_page_count (medConf : String → ℚ) (inp : PipeInput)
    (st : SysState) (htext : inp.fullText ≠ "") :
    ∃ m, get_document_metadata_by_id
      (process_document_body medConf inp st).2.db inp.doc_id = some m ∧
    m.page_count = some inp.pageTexts.length := by
  have hpc2 : ∀ dbz : DB, ∃ m, get_document_metadata_by_id
      (upsert_document_metadata
        (update_page_hash_map dbz inp.doc_id inp.filename inp.pageTexts
          ((inp.pageTexts.filter (fun t => t ≠ "")).map medConf)
          (List.replicate inp.pageTexts.length none)) inp.doc_id
        { status := some "processing_hash_check",
          page_count := some inp.pageTexts.length }) inp.doc_id = some m ∧
      m.page_count = some inp.pageTexts.length := by
    intro dbz
    exact upsert_sets_page_count _ _ _ _
  simp only [process_document_body]
  rw [if_neg htext]
  have hhash : compute_document_hash inp.fullText =
      some (sha256hex (normalize_for_hash inp.fullText)) := by
    simp [compute_document_hash, htext]
  rw [hhash]
  simp only []
  split
  · split
    · split
      · exact hpc2 _
      · rename_i db3 heq
        rw [commit_ok_eq _ _ _ _ heq]
        exact upsert_keeps_page_count _ _ _ _ rfl (hpc2 _)
    · split
      · exact hpc2 _
      · rename_i dbc heq
        rw [commit_ok_eq _ _ _ _ heq]
        exact tail_keeps_page_count _ _ _
          (upsert_keeps_page_count _ _ _ _ rfl (hpc2 _))
  · split
    · exact hpc2 _
    · rename_i dbc heq
      rw [commit_ok_eq _ _ _ _ heq]
      exact tail_keeps_page_count _ _ _
        (upsert_keeps_page_count _ _ _ _ rfl (hpc2 _))

/-- C10 (amended): the tracker stores exactly one Page row per non-blank
page text — carrying that text's 1-based position, its `hash_text` hash
and its (possibly empty) 300-character snippet — blank pages contribute no
row, hash or PageDuplicate edge (every added edge points at a created
row), the number of stored rows is at most the number of extracted texts,
and the pipeline persists page_count equal to the number of extracted page
texts, which can therefore exceed the stored rows and leave gaps in the
stored page numbers.  (The `stored_page_with_empty_snippet` counterexample
shows the stored snippet itself can be empty.) -/
theorem page_rows_match_nonblank_texts (db : DB) (docId : DocId)
    (texts : List String) (mc dc : Option (List ℚ))
    (ip : Option (List (Option String)))
    (medConf : String → ℚ) (inp : PipeInput) (st : SysState)
    (htext : inp.fullText ≠ "") :
    (process_document_pages db docId texts mc dc ip).2.docs = db.docs ∧
    (process_document_pages db docId texts mc dc ip).2.pages =
      db.pages ++ (process_document_pages db docId texts mc dc ip).1 ∧
    (process_document_pages db docId texts mc dc ip).1.map pageSig =
      (((List.range texts.length).map
        (fun i => (i + 1, texts.getD i ""))).filter
        (fun e => pyStrip e.2 ≠ "")).map (entrySig docId) ∧
    (∀ e2 ∈ (process_document_pages db docId texts mc dc ip).2.pageDuplicates,
      e2 ∈ db.pageDuplicates ∨
        ∃ p ∈ (process_document_pages db docId texts mc dc ip).1,
          e2.duplicate_page_id = p.id) ∧
    (process_document_pages db docId texts mc dc ip).1.length ≤
      texts.length ∧
    (∃ m, get_document_metadata_by_id
        (process_document medConf inp st).2.db inp.doc_id = some m ∧
      m.page_count = some inp.pageTexts.length) := by
  rcases pageFold_spec docId
      (padTo (mc.getD (List.replicate texts.length 0)) 0 texts.length)
      (padTo (dc.getD (List.replicate texts.length 0)) 0 texts.length)
      (padTo (ip.getD (List.replicate texts.length none)) none texts.length)
      ((List.range texts.length).map (fun i => (i + 1, texts.getD i "")))
      { db := db, created := [] }
    with ⟨np, h1, h2, h3, h4, h5, h6⟩
  rw [List.nil_append] at h1
  refine ⟨?_, ?_, ?_, ?_, ?_, ?_⟩
  · simp only [process_document_pages]
    exact h2
  · simp only [process_document_pages]
    rw [h1, h3]
  · simp only [process_document_pages]
    rw [h1]
    exact h4
  · simp only [process_document_pages]
    intro e2 he2
    rcases h5 e2 he2 with h | ⟨p, hp, hpe⟩
    · exact Or.inl h
    · refine Or.inr ⟨p, ?_, hpe⟩
      rw [h1]
      simpa using hp
  · simp only [process_document_pages]
    rw [h1]
    simpa using h6
  · rcases hb : process_document_body medConf inp st with ⟨res, stb⟩
    have hbody := body_records_page_count medConf inp st htext
    rw [hb] at hbody
    rcases res with e | r
    · simp only [process_document, hb]
      exact upsert_keeps_page_count _ _ _ _ rfl hbody
    · simp only [process_document, hb]
      exact hbody

set_option maxRecDepth 4000 in
/-- C10 counterexample: a page text of 300 spaces followed by "a" is
non-blank, so a Page row is stored for it, but its stored text snippet is
the empty string — refuting the claim that every stored Page carries a
non-empty text snippet. -/
theorem stored_page_with_empty_snippet :
    ((process_document_pages DB.empty "d"
      [String.mk (List.replicate 300 ' ') ++ "a"] none none none).1.map
      (fun p => p.text_snippet)) = [some ""] ∧
    pyStrip (String.mk (List.replicate 300 ' ') ++ "a") ≠ "" := by
  decide

/-- C10 witness: a two-page document with one blank page stores one Page
row while persisting page_count 2. -/
theorem page_rows_match_nonblank_texts_witness :
    ∃ m, get_document_metadata_by_id
      (process_document medConfZero
        { doc_id := "W", filename := "w.pdf", fullText := "alpha",
          pageTexts := ["x", " "] } initialState).2.db "W" = some m ∧
    m.page_count = some 2 :=
  (page_rows_match_nonblank_texts DB.empty "d" ["x", ""] none none none
    medConfZero
    { doc_id := "W", filename := "w.pdf", fullText := "alpha",
      pageTexts := ["x", " "] } initialState (by decide)).2.2.2.2.2
